import Mathlib

/-!
Verification of the resolution/orchestration core of the robot-avatar
generation server (`src/server.js`, canonical middle iteration).

The JavaScript is shallowly embedded: strings are Lean `String`s, the
artifact directories are explicit lists of named files, backend calls are
parameters carrying the backend outcome, and monetary costs are rationals.
JS `toLowerCase`/`toUpperCase` are modelled by their ASCII case mapping
(the only case mapping exercised by the server's concept names).
-/

namespace RobotServer

/-- ASCII alphanumeric test: the character class `[a-z0-9]` with the `i`
flag, i.e. the characters kept by `replace(/[^a-z0-9]/gi, ...)`. -/
def isAlnumAscii (c : Char) : Bool :=
  ('a' ≤ c && c ≤ 'z') || ('A' ≤ c && c ≤ 'Z') || ('0' ≤ c && c ≤ '9')

/-- ASCII lower-casing of one character, modelling JS `toLowerCase`. -/
def lowerChar (c : Char) : Char :=
  match c with
  | 'A' => 'a' | 'B' => 'b' | 'C' => 'c' | 'D' => 'd' | 'E' => 'e'
  | 'F' => 'f' | 'G' => 'g' | 'H' => 'h' | 'I' => 'i' | 'J' => 'j'
  | 'K' => 'k' | 'L' => 'l' | 'M' => 'm' | 'N' => 'n' | 'O' => 'o'
  | 'P' => 'p' | 'Q' => 'q' | 'R' => 'r' | 'S' => 's' | 'T' => 't'
  | 'U' => 'u' | 'V' => 'v' | 'W' => 'w' | 'X' => 'x' | 'Y' => 'y'
  | 'Z' => 'z' | c => c

/-- ASCII upper-casing of one character, modelling JS `toUpperCase`. -/
def upperChar (c : Char) : Char :=
  match c with
  | 'a' => 'A' | 'b' => 'B' | 'c' => 'C' | 'd' => 'D' | 'e' => 'E'
  | 'f' => 'F' | 'g' => 'G' | 'h' => 'H' | 'i' => 'I' | 'j' => 'J'
  | 'k' => 'K' | 'l' => 'L' | 'm' => 'M' | 'n' => 'N' | 'o' => 'O'
  | 'p' => 'P' | 'q' => 'Q' | 'r' => 'R' | 's' => 'S' | 't' => 'T'
  | 'u' => 'U' | 'v' => 'V' | 'w' => 'W' | 'x' => 'X' | 'y' => 'Y'
  | 'z' => 'Z' | c => c

/-- JS `s.toLowerCase()`. -/
def jsLower (s : String) : String := ⟨s.data.map lowerChar⟩

/-- JS `s.toUpperCase()`. -/
def jsUpper (s : String) : String := ⟨s.data.map upperChar⟩

/-- `s.toLowerCase().replace(/[^a-z0-9]/gi, '')` — the "clean" form used
for name matching (lower-case first, then drop non-alphanumerics). -/
def cleanLF (s : String) : String := ⟨(jsLower s).data.filter isAlnumAscii⟩

/-- `word.replace(/[^a-z0-9]/gi, '').toLowerCase()` — the cleaning used for
word-tier tokens (drop non-alphanumerics first, then lower-case). -/
def cleanFF (s : String) : String := ⟨(s.data.filter isAlnumAscii).map lowerChar⟩

/-- `prompt.toLowerCase().replace(/[^a-z0-9]/gi, '_')` — the "underscored"
form used for file names (`normalizedPrompt`). -/
def underscoreConcept (s : String) : String :=
  ⟨(jsLower s).data.map (fun c => if isAlnumAscii c then c else '_')⟩

/-- `prompt.toLowerCase().replace(/\s+/g, '').replace(/[^a-z0-9]/gi, '')` —
the `searchTerm` computed in the reference-folder cache checks. -/
def searchTermOf (s : String) : String :=
  ⟨((jsLower s).data.filter (fun c => !c.isWhitespace)).filter isAlnumAscii⟩

/-- One step of the last-dot scan: advance the position, record a dot. -/
def dotStep (p : Nat × Option Nat) (c : Char) : Nat × Option Nat :=
  (p.1 + 1, if c = '.' then some p.1 else p.2)

/-- Index of the last `.` in a character list, tracked left to right
(`none` when there is no dot). -/
def lastDotIdx (l : List Char) : Option Nat := (l.foldl dotStep (0, none)).2

/-- JS `path.basename(file, path.extname(file))` for a bare file name:
drop the extension starting at the last dot, except when that dot is the
first character (a dot-file has no extension). -/
def stripExtStr (s : String) : String :=
  match lastDotIdx s.data with
  | some i => if i = 0 then s else ⟨s.data.take i⟩
  | none => s

/-- JS `\d`: ASCII digit. -/
def isDigitAscii (c : Char) : Bool := '0' ≤ c && c ≤ '9'

/-- `name.replace(/_\d{13}$/, '')`: strip a trailing underscore plus
exactly 13 digits, when present. -/
def stripTs13 (s : String) : String :=
  let l := s.data
  if 14 ≤ l.length
      && (l.drop (l.length - 14)).take 1 == ['_']
      && (l.drop (l.length - 13)).all isDigitAscii
    then ⟨l.take (l.length - 14)⟩ else s

/-- A millisecond timestamp rendered by `Date.now()`: exactly 13 ASCII
digits. -/
def isTs13 (s : String) : Prop :=
  s.data.length = 13 ∧ s.data.all isDigitAscii = true

instance (s : String) : Decidable (isTs13 s) := by
  unfold isTs13; infer_instance

/-- The separators of `prompt.toLowerCase().split(/[\s\-_,&+]/)`
(JS `\s` modelled by ASCII whitespace). -/
def isSepChar (c : Char) : Bool :=
  c.isWhitespace || c = '-' || c = '_' || c = ',' || c = '&' || c = '+'

/-- `prompt.toLowerCase().split(/[\s\-_,&+]/)`. -/
def splitWords (s : String) : List String := (jsLower s).split isSepChar

/-- `name.replace(/_/g, ' ')`. -/
def underscToSpace (s : String) : String :=
  ⟨s.data.map (fun c => if c = '_' then ' ' else c)⟩

/-- Case-insensitive suffix test used to model `$`-anchored, `/i`-flagged
regexes on extensions. -/
def endsWithCI (s suf : String) : Bool :=
  let l := s.data
  let k := suf.data.length
  k ≤ l.length && (l.drop (l.length - k)).map lowerChar == suf.data

/-- The gallery filter `/\.(png|jpg|jpeg)$/i`. -/
def isImageFileCI (s : String) : Bool :=
  endsWithCI s ".png" || endsWithCI s ".jpg" || endsWithCI s ".jpeg"

/-- Case-sensitive image test used by `findRelatedRobots`
(`file.endsWith('.png') || file.endsWith('.jpg') || file.endsWith('.jpeg')`). -/
def isImageFileCS (s : String) : Bool :=
  let ends := fun (suf : String) =>
    suf.data.length ≤ s.data.length
      && (s.data.drop (s.data.length - suf.data.length)) == suf.data
  ends ".png" || ends ".jpg" || ends ".jpeg"

/-- Whether `l` ends with `_` + 13 digits + `.` + `ext` (case-insensitive
extension), one alternative of the gallery regex `/_\d{13}\.(png|jpg|jpeg)$/i`. -/
def tsExtMatch (l ext : List Char) : Bool :=
  let m := 15 + ext.length
  m ≤ l.length &&
    (let tail := l.drop (l.length - m)
     tail.take 1 == ['_']
       && ((tail.drop 1).take 13).all isDigitAscii
       && (tail.drop 14).take 1 == ['.']
       && (tail.drop 15).map lowerChar == ext)

/-- `filename.replace(/_\d{13}\.(png|jpg|jpeg)$/i, '')`. -/
def galleryStrip (s : String) : String :=
  let l := s.data
  if tsExtMatch l "png".data then ⟨l.take (l.length - 18)⟩
  else if tsExtMatch l "jpg".data then ⟨l.take (l.length - 18)⟩
  else if tsExtMatch l "jpeg".data then ⟨l.take (l.length - 19)⟩
  else s

/-- An artifact entry of `allExistingRobots` in `findRelatedRobots`
(the storage path is irrelevant to matching and omitted). -/
structure Robot where
  name : String
  source : String
deriving DecidableEq

/-- Cleaned robot name, `robot.name.toLowerCase().replace(/[^a-z0-9]/gi, '')`. -/
def robotClean (r : Robot) : String := cleanLF r.name

/-- One word-tier iteration of `findRelatedRobots` (server.js:855-871):
state is (`foundBaseRobots`, `relatedRobots`); a cleaned token shorter than
2 is skipped, otherwise the first artifact with that cleaned name is pushed
unless its base name was already found. -/
def wordTierStep (allExistingRobots : List Robot) (st : List String × List Robot)
    (w : String) : List String × List Robot :=
  let wordClean := cleanFF w
  if wordClean.length < 2 then st
  else
    match allExistingRobots.find? (fun r => robotClean r == wordClean) with
    | none => st
    | some r =>
      if robotClean r ∈ st.1 then st
      else (robotClean r :: st.1, st.2 ++ [r])

/-- The matching part of `findRelatedRobots` (server.js:838-872): exact tier
first (first artifact whose cleaned name equals the cleaned concept, then
`break`), otherwise the word tier over `promptWords`. -/
def matchRobots (prompt : String) (allExistingRobots : List Robot) : List Robot :=
  let promptClean := cleanLF prompt
  match allExistingRobots.find? (fun r => robotClean r == promptClean) with
  | some r => [r]
  | none =>
    (List.foldl (wordTierStep allExistingRobots) ([], []) (splitWords prompt)).2

/-- Assembly of `allExistingRobots` from the three directory listings
(server.js:804-835): case-sensitive image-extension filter, timestamp
stripping for generated names only. -/
def buildRobotsFromDirs (generatedFiles referenceFiles secondaryFiles : List String) :
    List Robot :=
  (generatedFiles.filter isImageFileCS).map
      (fun f => ⟨stripTs13 (stripExtStr f), "generated"⟩)
    ++ (referenceFiles.filter isImageFileCS).map (fun f => ⟨stripExtStr f, "reference"⟩)
    ++ (secondaryFiles.filter isImageFileCS).map
      (fun f => ⟨stripExtStr f, "secondary_reference"⟩)

/-- `findRelatedRobots` (server.js:781-878). Each directory argument is
`none` when the directory is unreadable. The generated and primary
reference reads sit in the one outer `try` (a failure of either aborts
matching with `[]`); only the secondary read has its own `try`, degrading
to an empty listing. -/
def findRelatedRobots (prompt : String)
    (generatedDir referenceDir secondaryDir : Option (List String)) : List Robot :=
  match generatedDir, referenceDir with
  | some g, some r => matchRobots prompt (buildRobotsFromDirs g r (secondaryDir.getD []))
  | _, _ => []

/-- `isUniqueConcept = relatedRobots.length === 0` (server.js:507). -/
def isUniqueConcept (relatedRobots : List Robot) : Bool := relatedRobots.length == 0

/-- Segments of the `uniquenessInstruction` template literal
(server.js:519-531), cut exactly at the `${prompt}` interpolations. -/
def uniq1 : String := "\n\u26A0\uFE0F CRITICAL UNIQUENESS REQUIREMENT \u26A0\uFE0F\nThis is \""

/-- Second `uniquenessInstruction` segment (between the first and second
`${prompt}`). -/
def uniq2 : String := "\" - a UNIQUE CONCEPT not found in existing robots or programming languages.\n\nMANDATORY: Create a COMPLETELY ORIGINAL robot design that:\n1. MUST BE DISTINCTLY DIFFERENT from ALL reference images shown\n2. Should NOT resemble any specific reference robot\n3. Use the reference images ONLY for understanding the general 3D rendering style and quality\n4. Create a UNIQUE form/shape/character that represents \""

/-- Third `uniquenessInstruction` segment. -/
def uniq3 : String := "\" conceptually\n5. DO NOT copy or closely imitate any reference robot\x27s body shape, head design, or overall form\n6. Invent NEW design elements specific to \""

/-- Final `uniquenessInstruction` segment. -/
def uniq4 : String := "\"\n\nThe reference images are provided ONLY to show the rendering quality and style (3D, materials, lighting) - NOT to copy their designs.\nCreate something ENTIRELY NEW while maintaining the same professional 3D rendering quality.\n"

/-- The `uniquenessInstruction` template literal (server.js:519-531). -/
def uniquenessInstruction (prompt : String) : String :=
  uniq1 ++ prompt ++ uniq2 ++ prompt ++ uniq3 ++ prompt ++ uniq4

/-- JS `Array.join(', ')`. -/
def joinComma : List String → String
  | [] => ""
  | [s] => s
  | s :: rest => s ++ ", " ++ joinComma rest

/-- Segments of the matched-case `relatedInfo` template literal
(server.js:535-543), cut at the interpolations. -/
def rel1 : String := "\nCRITICAL: The reference images include base robots for: "

/-- Second `relatedInfo` segment (after the joined names). -/
def rel2 : String := ". \n            \nKEY INSTRUCTION: The new \""

/-- Third `relatedInfo` segment. -/
def rel3 : String := "\" robot MUST maintain the CORE VISUAL IDENTITY of these base robots:\n- If the base is a snake head (like Python), this should also be a snake head\n- If the base is a particular shape/form, maintain that shape/form\n- Keep the fundamental character/creature type the same\n- Add variations and details specific to \""

/-- Final `relatedInfo` segment. -/
def rel4 : String := "\" but DO NOT change the core identity\n\nThink of this as creating a variant or evolution of the base robot, not a completely different robot.\n"

/-- The matched-case `relatedInfo` template literal (server.js:535-543). -/
def relatedInfoStr (prompt : String) (names : List String) : String :=
  rel1 ++ joinComma names ++ rel2 ++ prompt ++ rel3 ++ prompt ++ rel4

/-- Segments of `finalPrompt` (server.js:546-574), cut at the
interpolations. -/
def bgpLit1 : String := "Create a 3D rendered robot based on the reference images provided. The robot MUST match the exact 3D rendering style, materials, and quality of the reference robots - NOT a drawing or illustration.\n\nCRITICAL: This should be a photorealistic 3D render, exactly like the reference images.\n\nABSOLUTELY NO TEXT: The robot must have NO TEXT, NO LETTERS, NO WORDS, NO LABELS anywhere on it. Do NOT write \""

/-- `finalPrompt` segment after the first `${prompt}`. -/
def bgpLit2 : String := "\" or any other text on the robot\x27s body, head, or any part. The robot should be completely text-free, just like the reference images.\n"

/-- `finalPrompt` segment before `${styleGuide}`. -/
def bgpLit3 : String := "\nSTYLE TO MAINTAIN (from reference analysis):\n"

/-- `finalPrompt` requirements block before `${prompt.toUpperCase()}`. -/
def bgpLit4 : String := "\n\nREQUIREMENTS:\n- MUST be a 3D render, NOT a drawing or illustration\n- Keep the EXACT same 3D rendering quality and style as references\n- Same material textures (metal, plastic, etc) as reference robots\n- Maintain similar proportions and mechanical details  \n- Use the same photorealistic lighting and shading\n- White background\n- Robot facing slightly left (3/4 view)\n- Single robot only, no additional objects\n- Square image composition\n- NO TEXT OR LABELS - absolutely no written words, letters, or numbers on the robot\n\n"

/-- `finalPrompt` segment before `${research}`. -/
def bgpLit5 : String := " SPECIFIC CUSTOMIZATION:\n"

/-- `finalPrompt` separator before the closing branch. -/
def bgpLit6 : String := "\n\n"

/-- `finalPrompt` segment opening the closing reminder. -/
def bgpLit7 : String := "\n\nREMINDER: NO TEXT ON THE ROBOT - Do not write \""

/-- Final `finalPrompt` segment. -/
def bgpLit8 : String := "\" or any text on the robot. Express the concept through design, colors, and form only."

/-- Unique-case closing branch, first piece. -/
def bgpRem1 : String := "REMEMBER: \""

/-- Unique-case closing branch, second piece. -/
def bgpRem2 : String := "\" is a UNIQUE concept - create an ORIGINAL robot design that doesn\x27t copy any reference robot\x27s form!"

/-- Matched-case closing branch, first piece. -/
def bgpImp1 : String := "IMPORTANT: This is \""

/-- Matched-case closing branch, second piece. -/
def bgpImp2 : String := "\" - create a VARIANT of the base robot(s) that maintains their core visual identity (same creature/form/shape) while adding elements specific to \""

/-- Matched-case closing branch, third piece. -/
def bgpImp3 : String := "\". Do NOT create a completely different robot - think of this as the same robot family with modifications."

/-- `buildGenerationPrompt`\x27s `finalPrompt` (server.js:503-577). The style
guide and research texts are upstream backend outputs and enter as
parameters. -/
def buildGenerationPrompt (prompt styleGuide research : String)
    (relatedRobots : List Robot) : String :=
  let unique := isUniqueConcept relatedRobots
  let uniqueness := if unique then uniquenessInstruction prompt else ""
  let relatedInfo :=
    if 0 < relatedRobots.length then relatedInfoStr prompt (relatedRobots.map Robot.name)
    else uniqueness
  bgpLit1 ++ prompt ++ bgpLit2 ++ relatedInfo ++ bgpLit3 ++ styleGuide ++ bgpLit4
    ++ jsUpper prompt ++ bgpLit5 ++ research ++ bgpLit6
    ++ (if unique then bgpRem1 ++ prompt ++ bgpRem2
        else bgpImp1 ++ prompt ++ bgpImp2 ++ prompt ++ bgpImp3)
    ++ bgpLit7 ++ prompt ++ bgpLit8

/-- A contiguous substring test: does `n` lead (prefix) `h`? -/
def leadsB : List Char → List Char → Bool
  | [], _ => true
  | _ :: _, [] => false
  | a :: n, b :: h => a == b && leadsB n h

/-- Does `n` occur contiguously in `h`? -/
def occursB (n : List Char) : List Char → Bool
  | [] => n.isEmpty
  | c :: t => leadsB n (c :: t) || occursB n t

/-- `needle` occurs contiguously in `hay`. -/
def Occurs (needle hay : String) : Prop := occursB needle.data hay.data = true

instance (n h : String) : Decidable (Occurs n h) := by
  unfold Occurs; infer_instance

/-- OpenAI cost calculation (server.js:739-770): with reported usage,
input at 10 dollars/1M, output at 40 dollars/1M, plus 4160 image tokens at
40 dollars/1M; without usage, an estimate of 500 prompt tokens plus the
image tokens. -/
def openaiEstimatedCost (usage : Option (ℕ × ℕ)) : ℚ :=
  match usage with
  | some pc =>
    (pc.1 : ℚ) / 1000000 * 10 + (pc.2 : ℚ) / 1000000 * 40 + (4160 : ℚ) / 1000000 * 40
  | none => (500 : ℚ) / 1000000 * 10 + (4160 : ℚ) / 1000000 * 40

/-- Google cost calculation (server.js:640-642): 1290 image output tokens
at 30 dollars per 1M output tokens. -/
def googleEstimatedCost : ℚ := (1290 : ℚ) / 1000000 * 30

/-- One stored image file: name plus (abstracted) byte content. -/
structure GenFile where
  name : String
  bytes : ℕ
deriving DecidableEq

/-- The three artifact directories; `none` models an unreadable directory. -/
structure Store where
  generated : Option (List GenFile)
  reference : Option (List GenFile)
  secondary : Option (List GenFile)
deriving DecidableEq

/-- `fs.writeFile` into a directory listing: replace the file of that name
in place when present, otherwise append. -/
def writeFileFs (store : List GenFile) (name : String) (bytes : ℕ) : List GenFile :=
  if store.any (fun f => f.name == name) then
    store.map (fun f => if f.name == name then ⟨name, bytes⟩ else f)
  else store ++ [⟨name, bytes⟩]

/-- The `existingGenerated` predicate (server.js:1020-1026): basename
without extension, lower-cased, 13-digit timestamp suffix stripped, exact
equality with the underscored prompt. -/
def genCachePred (normalizedPrompt : String) (f : GenFile) : Bool :=
  stripTs13 (jsLower (stripExtStr f.name)) == normalizedPrompt

/-- The reference-folder predicates (server.js:1044-1050 and 1077-1083):
cleaned basename equals the cleaned search term. -/
def refCachePred (searchTerm : String) (f : GenFile) : Bool :=
  cleanFF (jsLower (stripExtStr f.name)) == searchTerm

/-- The fan-out cache predicates (server.js:901-915): like `genCachePred`
but against the underscored prompt with a backend-tag suffix. -/
def fanCachePred (normalizedPrompt tag : String) (f : GenFile) : Bool :=
  stripTs13 (jsLower (stripExtStr f.name)) == normalizedPrompt ++ tag

/-- One backend's entry of the combined fan-out response. A missing JS key
(`cached`, `cost`, `error` on some branches) is modelled by `false`/`none`. -/
structure BothSide where
  success : Bool
  filename : Option String
  cached : Bool
  cost : Option ℚ
  error : Option String
deriving DecidableEq

/-- Result of the `model === 'both'` branch: both sides of the combined
response, the files it wrote, and the Generated listing afterwards. -/
structure BothOutcome where
  openai : BothSide
  google : BothSide
  newFiles : List GenFile
  store : List GenFile
deriving DecidableEq

/-- The OpenAI half of the `model === 'both'` branch (server.js:932-965):
its own cache check keyed on the underscored concept plus `_openai`, a
cache hit answering `cached: true, cost: '$0.0000'` with nothing written,
otherwise the backend outcome (image bytes plus optional (prompt,
completion) usage) saved under `concept_openai_timestamp.png` or reported
as that side's error. -/
def fanoutOpenaiSide (normalizedPrompt : String) (generatedFiles : List GenFile)
    (openaiOutcome : Except String (ℕ × Option (ℕ × ℕ))) (tsO : String) :
    BothSide × List GenFile :=
  match generatedFiles.find? (fanCachePred normalizedPrompt "_openai") with
  | some f => (⟨true, some f.name, true, some 0, none⟩, [])
  | none =>
    match openaiOutcome with
    | .ok bu =>
      let filename := normalizedPrompt ++ "_openai_" ++ tsO ++ ".png"
      (⟨true, some filename, false, some (openaiEstimatedCost bu.2), none⟩,
        [⟨filename, bu.1⟩])
    | .error e => (⟨false, none, false, none, some e⟩, [])

/-- The Google half of the fan-out branch, as `fanoutOpenaiSide`. -/
def fanoutGoogleSide (normalizedPrompt : String) (generatedFiles : List GenFile)
    (googleOutcome : Except String ℕ) (tsG : String) : BothSide × List GenFile :=
  match generatedFiles.find? (fanCachePred normalizedPrompt "_google") with
  | some f => (⟨true, some f.name, true, some 0, none⟩, [])
  | none =>
    match googleOutcome with
    | .ok bytes =>
      let filename := normalizedPrompt ++ "_google_" ++ tsG ++ ".png"
      (⟨true, some filename, false, some googleEstimatedCost, none⟩, [⟨filename, bytes⟩])
    | .error e => (⟨false, none, false, none, some e⟩, [])

/-- The `model === 'both'` branch (server.js:892-1011): both per-backend
sides over the same Generated listing, the combined response carrying each
side's outcome independently, and the writes applied to the store. -/
def bothBranch (prompt : String) (generatedFiles : List GenFile)
    (openaiOutcome : Except String (ℕ × Option (ℕ × ℕ)))
    (googleOutcome : Except String ℕ) (tsO tsG : String) : BothOutcome :=
  let normalizedPrompt := underscoreConcept prompt
  let oai := fanoutOpenaiSide normalizedPrompt generatedFiles openaiOutcome tsO
  let goo := fanoutGoogleSide normalizedPrompt generatedFiles googleOutcome tsG
  ⟨oai.1, goo.1, oai.2 ++ goo.2,
    List.foldl (fun s f => writeFileFs s f.name f.bytes) generatedFiles (oai.2 ++ goo.2)⟩

/-- A single-backend response of `/api/generate`. `cached`/`source` keys
absent in JS are modelled by `false`/`none`; `cost` is the numeric value
behind the formatted cost string (`'$0.0000'` on cache hits). -/
structure GenResponse where
  success : Bool
  filename : String
  cached : Bool
  source : Option String
  cost : ℚ
deriving DecidableEq

/-- Outcome of one `/api/generate` request. -/
inductive ApiResult where
  | badRequest : ApiResult
  | serverError : String → ApiResult
  | single : GenResponse → Store → ApiResult
  | both : BothSide → BothSide → Store → ApiResult
deriving DecidableEq

/-- The `/api/generate` endpoint (server.js:881-1181). A missing prompt is
rejected first. In `'both'` mode only the Generated listing is consulted
(its `readdir` is unguarded, so an unreadable directory is a 500). In
single mode: unguarded Generated `readdir` and exact-name check, then
unguarded Reference `readdir` and cleaned-name check with promotion, then
the `try`-guarded Secondary check with promotion, then generation with the
selected backend (`'google'` selects Google, anything else OpenAI) and a
timestamped save. -/
def apiGenerate (prompt modelStr : String) (st : Store)
    (openaiOutcome : Except String (ℕ × Option (ℕ × ℕ)))
    (googleOutcome : Except String ℕ) (ts tsO tsG : String) : ApiResult :=
  if prompt = "" then .badRequest
  else if modelStr = "both" then
    match st.generated with
    | none => .serverError "readdir Generated failed"
    | some generatedFiles =>
      let r := bothBranch prompt generatedFiles openaiOutcome googleOutcome tsO tsG
      .both r.openai r.google { st with generated := some r.store }
  else
    let normalizedPrompt := underscoreConcept prompt
    match st.generated with
    | none => .serverError "readdir Generated failed"
    | some generatedFiles =>
      match generatedFiles.find? (genCachePred normalizedPrompt) with
      | some f => .single ⟨true, f.name, true, none, 0⟩ st
      | none =>
        match st.reference with
        | none => .serverError "readdir Reference Images failed"
        | some referenceFiles =>
          let searchTerm := searchTermOf prompt
          match referenceFiles.find? (refCachePred searchTerm) with
          | some rf =>
            let filename := normalizedPrompt ++ "_" ++ ts ++ ".png"
            .single ⟨true, filename, true, some "reference", 0⟩
              { st with generated := some (writeFileFs generatedFiles filename rf.bytes) }
          | none =>
            let secondaryHit : Option GenFile :=
              match st.secondary with
              | none => none
              | some secondaryFiles => secondaryFiles.find? (refCachePred searchTerm)
            match secondaryHit with
            | some sf =>
              let filename := normalizedPrompt ++ "_" ++ ts ++ ".png"
              .single ⟨true, filename, true, some "secondary_reference", 0⟩
                { st with generated := some (writeFileFs generatedFiles filename sf.bytes) }
            | none =>
              match (if modelStr = "google" then
                      googleOutcome.map (fun b => (b, googleEstimatedCost))
                    else openaiOutcome.map (fun bu => (bu.1, openaiEstimatedCost bu.2))) with
              | .error e => .serverError e
              | .ok bc =>
                let filename := normalizedPrompt ++ "_" ++ ts ++ ".png"
                .single ⟨true, filename, false, none, bc.2⟩
                  { st with generated := some (writeFileFs generatedFiles filename bc.1) }

/-- One gallery entry (server.js:1265-1268): stored filename plus display
name (timestamp-and-extension suffix stripped, underscores to spaces). -/
def galleryEntry (filename : String) : String × String :=
  (filename, underscToSpace (galleryStrip filename))

/-- The `/api/gallery` endpoint (server.js:1257-1276): image files only,
mapped to entries, reversed ("newest first"). -/
def apiGallery (files : List String) : List (String × String) :=
  ((files.filter isImageFileCI).map galleryEntry).reverse

/-- Modelled from the spec (claim C2's wording), for comparison with the
source-derived matcher: deduplication keeping first occurrences. -/
def dedupFirstAux (seen : List String) : List String → List String
  | [] => []
  | t :: ts => if t ∈ seen then dedupFirstAux seen ts else t :: dedupFirstAux (t :: seen) ts

/-- Modelled from the spec (claim C2's wording): first-occurrence
deduplication of a token list. -/
def dedupFirst (l : List String) : List String := dedupFirstAux [] l

/-- Modelled from the spec (claim C2's wording): the cleaned tokens of the
concept that are at least 2 characters long and are some artifact's cleaned
name. -/
def goodToks (robots : List Robot) (ws : List String) : List String :=
  (ws.map cleanFF).filter (fun t => 2 ≤ t.length && robots.any (fun r => robotClean r == t))

/-- Modelled from the spec (claim C2's wording): the word tier returns one
artifact per distinct cleaned token of length at least 2 that some
artifact's cleaned name equals, in token order, deduplicated by cleaned
name. -/
def wordTierSpec (prompt : String) (robots : List Robot) : List Robot :=
  (dedupFirst (goodToks robots (splitWords prompt))).filterMap
    (fun t => robots.find? (fun r => robotClean r == t))

/-! ### Character-level lemmas -/

theorem lowerChar_of_not_upper (c : Char) (h : ¬ ('A' ≤ c ∧ c ≤ 'Z')) : lowerChar c = c := by
  unfold lowerChar
  split <;> first | rfl | (exfalso; exact h (by decide))

theorem lowerChar_vals (c : Char) :
    lowerChar c ∈ ['a', 'b', 'c', 'd', 'e', 'f', 'g', 'h', 'i', 'j', 'k', 'l', 'm',
      'n', 'o', 'p', 'q', 'r', 's', 't', 'u', 'v', 'w', 'x', 'y', 'z'] ∨ lowerChar c = c := by
  unfold lowerChar
  split <;> first | (left; decide) | (right; rfl)

theorem lowerChar_idem (c : Char) : lowerChar (lowerChar c) = lowerChar c := by
  have hfix : ∀ d ∈ ['a', 'b', 'c', 'd', 'e', 'f', 'g', 'h', 'i', 'j', 'k', 'l', 'm',
      'n', 'o', 'p', 'q', 'r', 's', 't', 'u', 'v', 'w', 'x', 'y', 'z'], lowerChar d = d := by
    decide
  rcases lowerChar_vals c with h | h
  · exact hfix _ h
  · rw [h]; exact h

theorem lowerChar_of_digit (c : Char) (h : isDigitAscii c = true) : lowerChar c = c := by
  refine lowerChar_of_not_upper c ?_
  rintro ⟨h1, h2⟩
  simp only [isDigitAscii, Bool.and_eq_true, decide_eq_true_eq] at h
  exact absurd (le_trans h1 h.2) (by decide)

theorem lowerChar_underscore : lowerChar '_' = '_' := by decide

theorem upperChar_ne_V (c : Char) (h1 : c ≠ 'v') (h2 : c ≠ 'V') : upperChar c ≠ 'V' := by
  unfold upperChar
  split <;> first | decide | exact h2 | simp_all

theorem upperChar_ne_warn (c : Char) (h : c ≠ '⚠') : upperChar c ≠ '⚠' := by
  unfold upperChar
  split <;> first | decide | exact h

/-! ### Shape lemmas for file names -/

theorem foldl_dotStep_no_dot (l : List Char) (h : '.' ∉ l) (n : ℕ) (acc : Option ℕ) :
    l.foldl dotStep (n, acc) = (n + l.length, acc) := by
  induction l generalizing n with
  | nil => simp
  | cons c t ih =>
    have hc : ¬ (c = '.') := fun hc => h (hc ▸ List.mem_cons_self c t)
    have ht : '.' ∉ t := fun ht => h (List.mem_cons_of_mem c ht)
    simp only [List.foldl_cons, dotStep]
    rw [if_neg hc, ih ht (n + 1)]
    simp only [List.length_cons, Prod.mk.injEq]
    exact ⟨by omega, by trivial⟩

theorem lastDotIdx_shape (pre suf : List Char) (hpre : '.' ∉ pre) (hsuf : '.' ∉ suf) :
    lastDotIdx (pre ++ '.' :: suf) = some pre.length := by
  unfold lastDotIdx
  rw [List.foldl_append, foldl_dotStep_no_dot pre hpre 0 none, List.foldl_cons]
  simp only [dotStep, Nat.zero_add]
  rw [foldl_dotStep_no_dot suf hsuf (pre.length + 1)]
  simp

theorem stripExtStr_shape (pre suf : List Char) (hpre : '.' ∉ pre) (hsuf : '.' ∉ suf)
    (hne : pre ≠ []) : stripExtStr ⟨pre ++ '.' :: suf⟩ = ⟨pre⟩ := by
  unfold stripExtStr
  have hd : (String.mk (pre ++ '.' :: suf)).data = pre ++ '.' :: suf := rfl
  rw [hd, lastDotIdx_shape pre suf hpre hsuf]
  have hlen : pre.length ≠ 0 := fun h => hne (List.length_eq_zero.mp h)
  simp only [if_neg hlen]
  rw [List.take_left' rfl]

theorem stripTs13_shape (pre ts : List Char) (h13 : ts.length = 13)
    (hd : ts.all isDigitAscii = true) : stripTs13 ⟨pre ++ '_' :: ts⟩ = ⟨pre⟩ := by
  unfold stripTs13
  have hdata : (String.mk (pre ++ '_' :: ts)).data = pre ++ '_' :: ts := rfl
  have hlen : (pre ++ '_' :: ts).length = pre.length + 14 := by simp [h13]
  have h14 : (pre ++ '_' :: ts).length - 14 = pre.length := by omega
  have h13' : (pre ++ '_' :: ts).length - 13 = pre.length + 1 := by omega
  have hdrop14 : (pre ++ '_' :: ts).drop pre.length = '_' :: ts := List.drop_left pre _
  have hdrop13 : (pre ++ '_' :: ts).drop (pre.length + 1) = ts := by
    have : pre ++ '_' :: ts = (pre ++ ['_']) ++ ts := by simp
    rw [this, List.drop_left' (by simp)]
  simp only [hdata, hlen, h14, h13', hdrop14, hdrop13]
  rw [if_pos]
  · rw [show pre.length + 14 - 14 = pre.length from by omega, List.take_left' rfl]
  · simp [hd]

theorem data_mk (l : List Char) : (String.mk l).data = l := rfl

theorem jsLower_mk (l : List Char) : jsLower ⟨l⟩ = ⟨l.map lowerChar⟩ := rfl

theorem underscoreConcept_chars (p : String) :
    ∀ c ∈ (underscoreConcept p).data, isAlnumAscii c = true ∨ c = '_' := by
  intro c hc
  unfold underscoreConcept jsLower at hc
  rw [data_mk, List.map_map] at hc
  obtain ⟨x, _, hx⟩ := List.mem_map.mp hc
  by_cases h : isAlnumAscii (lowerChar x) = true
  · left; rw [← hx]; simp [Function.comp, h]
  · right; rw [← hx]; simp [Function.comp, h]

theorem no_dot_underscoreConcept (p : String) : '.' ∉ (underscoreConcept p).data := by
  intro h
  rcases underscoreConcept_chars p '.' h with h' | h' <;> exact absurd h' (by decide)

theorem lowerChar_fix_of_image (x : Char) :
    lowerChar (if isAlnumAscii (lowerChar x) then lowerChar x else '_') =
      (if isAlnumAscii (lowerChar x) then lowerChar x else '_') := by
  split
  · exact lowerChar_idem x
  · decide

theorem jsLower_underscoreConcept (p : String) :
    jsLower (underscoreConcept p) = underscoreConcept p := by
  unfold jsLower underscoreConcept
  rw [data_mk, List.map_map]
  congr 1
  refine List.map_congr_left ?_
  intro c hc
  have hex : ∃ x, lowerChar x = c := by
    unfold jsLower at hc
    rw [data_mk] at hc
    obtain ⟨x, _, hx⟩ := List.mem_map.mp hc
    exact ⟨x, hx⟩
  obtain ⟨x, rfl⟩ := hex
  simpa [Function.comp] using lowerChar_fix_of_image x

theorem filter_alnum_over_underscore (m : List Char) :
    (m.map (fun c => if isAlnumAscii c then c else '_')).filter isAlnumAscii =
      m.filter isAlnumAscii := by
  induction m with
  | nil => rfl
  | cons c t ih =>
    by_cases h : isAlnumAscii c = true
    · simp [List.filter_cons, h, ih]
    · have h' : isAlnumAscii c = false := by simpa using h
      simp [List.filter_cons, h', ih, (by decide : isAlnumAscii '_' = false)]

theorem cleanLF_underscoreConcept (p : String) :
    cleanLF (underscoreConcept p) = cleanLF p := by
  unfold cleanLF
  rw [jsLower_underscoreConcept]
  unfold underscoreConcept
  rw [data_mk, data_mk]
  exact congrArg String.mk (filter_alnum_over_underscore _)

theorem not_alnum_of_whitespace (c : Char) (h : c.isWhitespace = true) :
    isAlnumAscii c = false := by
  simp only [Char.isWhitespace, Bool.or_eq_true, decide_eq_true_eq] at h
  rcases h with ((h | h) | h) | h <;> subst h <;> decide

theorem searchTermOf_eq_cleanLF (p : String) : searchTermOf p = cleanLF p := by
  unfold searchTermOf cleanLF
  congr 1
  induction (jsLower p).data with
  | nil => rfl
  | cons c t ih =>
    by_cases h : c.isWhitespace = true
    · simp [List.filter_cons, h, not_alnum_of_whitespace c h, ih]
    · simp only [List.filter_cons]
      rw [show (!c.isWhitespace) = true from by simp [h]]
      by_cases ha : isAlnumAscii c = true <;> simp [ha, ih]

theorem string_ext (s t : String) (h : s.data = t.data) : s = t := by
  cases s; cases t; exact congrArg String.mk h

theorem jsLower_append (s t : String) : jsLower (s ++ t) = jsLower s ++ jsLower t := by
  apply string_ext
  simp [jsLower, String.data_append]

theorem jsLower_digits (ts : String) (h : ts.data.all isDigitAscii = true) :
    jsLower ts = ts := by
  apply string_ext
  simp only [jsLower, data_mk]
  conv_rhs => rw [← List.map_id ts.data]
  refine List.map_congr_left ?_
  intro c hc
  simpa using lowerChar_of_digit c (List.all_eq_true.mp h c hc)

theorem no_dot_of_digits (ts : String) (h : ts.data.all isDigitAscii = true) :
    '.' ∉ ts.data := by
  intro hm
  exact absurd (List.all_eq_true.mp h '.' hm) (by decide)

/-- Decomposing `base ++ "_" ++ ts ++ ".png"` at the character level. -/
theorem name_data_shape (base ts : String) :
    (base ++ "_" ++ ts ++ ".png").data =
      (base.data ++ '_' :: ts.data) ++ '.' :: "png".data := by
  simp [String.data_append]

/-- The matcher's logical name of a stored file `base_ts.png`: extension
and 13-digit timestamp stripped, recovering `base`. -/
theorem logicalName_shape (base ts : String) (hdot : '.' ∉ base.data) (h13 : isTs13 ts) :
    stripTs13 (stripExtStr (base ++ "_" ++ ts ++ ".png")) = base := by
  obtain ⟨hlen, hdig⟩ := h13
  have hrepr : base ++ "_" ++ ts ++ ".png" =
      ⟨(base.data ++ '_' :: ts.data) ++ '.' :: "png".data⟩ :=
    string_ext _ _ (name_data_shape base ts)
  have hpre : '.' ∉ base.data ++ '_' :: ts.data := by
    intro hm
    rcases List.mem_append.mp hm with hm | hm
    · exact hdot hm
    · rcases List.mem_cons.mp hm with hm | hm
      · exact absurd hm (by decide)
      · exact no_dot_of_digits ts hdig hm
  rw [hrepr, stripExtStr_shape _ _ hpre (by decide) (by simp),
    stripTs13_shape base.data ts.data hlen hdig]

/-- As `logicalName_shape` but through the `toLowerCase` applied by the
cache predicates, for a base fixed by lower-casing. -/
theorem lowerName_shape (base ts : String) (hfix : jsLower base = base)
    (hdot : '.' ∉ base.data) (h13 : isTs13 ts) :
    stripTs13 (jsLower (stripExtStr (base ++ "_" ++ ts ++ ".png"))) = base := by
  obtain ⟨hlen, hdig⟩ := h13
  have hrepr : base ++ "_" ++ ts ++ ".png" =
      ⟨(base.data ++ '_' :: ts.data) ++ '.' :: "png".data⟩ :=
    string_ext _ _ (name_data_shape base ts)
  have hpre : '.' ∉ base.data ++ '_' :: ts.data := by
    intro hm
    rcases List.mem_append.mp hm with hm | hm
    · exact hdot hm
    · rcases List.mem_cons.mp hm with hm | hm
      · exact absurd hm (by decide)
      · exact no_dot_of_digits ts hdig hm
  rw [hrepr, stripExtStr_shape _ _ hpre (by decide) (by simp)]
  have hlow : jsLower ⟨base.data ++ '_' :: ts.data⟩ = ⟨base.data ++ '_' :: ts.data⟩ := by
    have h1 : (⟨base.data ++ '_' :: ts.data⟩ : String) = base ++ "_" ++ ts := by
      apply string_ext
      simp [String.data_append]
    rw [h1, jsLower_append, jsLower_append, hfix, jsLower_digits ts hdig]
    rfl
  rw [hlow, stripTs13_shape base.data ts.data hlen hdig]

theorem jsLower_fix_append_tag (p : String) (tag : String) (htag : jsLower tag = tag) :
    jsLower (underscoreConcept p ++ tag) = underscoreConcept p ++ tag := by
  rw [jsLower_append, jsLower_underscoreConcept, htag]

theorem genCachePred_mkname (p ts : String) (b : ℕ) (h13 : isTs13 ts) :
    genCachePred (underscoreConcept p)
      ⟨underscoreConcept p ++ "_" ++ ts ++ ".png", b⟩ = true := by
  unfold genCachePred
  rw [show (GenFile.mk (underscoreConcept p ++ "_" ++ ts ++ ".png") b).name =
      underscoreConcept p ++ "_" ++ ts ++ ".png" from rfl]
  rw [lowerName_shape _ _ (jsLower_underscoreConcept p) (no_dot_underscoreConcept p) h13]
  simp

theorem no_dot_tagged (p tag : String) (htag : '.' ∉ tag.data) :
    '.' ∉ (underscoreConcept p ++ tag).data := by
  intro hm
  rw [String.data_append] at hm
  rcases List.mem_append.mp hm with hm | hm
  · exact no_dot_underscoreConcept p hm
  · exact htag hm

theorem fanCachePred_mkname (p ts tag : String) (b : ℕ) (h13 : isTs13 ts)
    (htagl : jsLower tag = tag) (htagd : '.' ∉ tag.data) :
    fanCachePred (underscoreConcept p) tag
      ⟨(underscoreConcept p ++ tag) ++ "_" ++ ts ++ ".png", b⟩ = true := by
  unfold fanCachePred
  rw [show (GenFile.mk ((underscoreConcept p ++ tag) ++ "_" ++ ts ++ ".png") b).name =
      (underscoreConcept p ++ tag) ++ "_" ++ ts ++ ".png" from rfl]
  rw [lowerName_shape _ _ (jsLower_fix_append_tag p tag htagl) (no_dot_tagged p tag htagd) h13]
  simp

theorem genCachePred_tagged_name (p ts tag : String) (b : ℕ) (h13 : isTs13 ts)
    (htagl : jsLower tag = tag) (htagd : '.' ∉ tag.data) (htagne : tag ≠ "") :
    genCachePred (underscoreConcept p)
      ⟨(underscoreConcept p ++ tag) ++ "_" ++ ts ++ ".png", b⟩ = false := by
  unfold genCachePred
  rw [show (GenFile.mk ((underscoreConcept p ++ tag) ++ "_" ++ ts ++ ".png") b).name =
      (underscoreConcept p ++ tag) ++ "_" ++ ts ++ ".png" from rfl]
  rw [lowerName_shape _ _ (jsLower_fix_append_tag p tag htagl) (no_dot_tagged p tag htagd) h13]
  refine beq_eq_false_iff_ne.mpr ?_
  intro he
  have hlen := congrArg (fun s => s.data.length) he
  simp only [String.data_append, List.length_append] at hlen
  have : tag.data.length = 0 := by omega
  exact htagne (string_ext tag "" (List.length_eq_zero.mp this))

/-! ### Word-tier characterization -/

theorem wordTier_foldl_spec (robots : List Robot) (ws : List String) :
    ∀ seen acc, (List.foldl (wordTierStep robots) (seen, acc) ws).2 =
      acc ++ (dedupFirstAux seen (goodToks robots ws)).filterMap
        (fun t => robots.find? (fun r => robotClean r == t)) := by
  induction ws with
  | nil => intro seen acc; simp [goodToks, dedupFirstAux]
  | cons w ws ih =>
    intro seen acc
    rw [List.foldl_cons]
    by_cases hw : (cleanFF w).length < 2
    · have hdec : ¬ (2 ≤ (cleanFF w).length) := by omega
      have hstep : wordTierStep robots (seen, acc) w = (seen, acc) := by
        simp [wordTierStep, if_pos hw]
      rw [hstep, ih seen acc,
        show goodToks robots (w :: ws) = goodToks robots ws from by
          simp [goodToks, List.filter_cons, hdec]]
    · have h2 : 2 ≤ (cleanFF w).length := by omega
      rcases hfind : robots.find? (fun r => robotClean r == cleanFF w) with _ | r
      · have hany : (robots.any (fun r => robotClean r == cleanFF w)) = false := by
          rw [List.any_eq_false]
          intro x hx
          simpa using List.find?_eq_none.mp hfind x hx
        have hstep : wordTierStep robots (seen, acc) w = (seen, acc) := by
          simp [wordTierStep, if_neg hw, hfind]
        rw [hstep, ih seen acc,
          show goodToks robots (w :: ws) = goodToks robots ws from by
            simp [goodToks, List.filter_cons, hany]]
      · have hpr : (robotClean r == cleanFF w) = true := by
          have hp := List.find?_some hfind
          simpa using hp
        have hany : (robots.any (fun r => robotClean r == cleanFF w)) = true :=
          List.any_eq_true.mpr ⟨r, List.mem_of_find?_eq_some hfind, hpr⟩
        have hgood : goodToks robots (w :: ws) = cleanFF w :: goodToks robots ws := by
          simp [goodToks, List.filter_cons, hany, h2]
        have hr : robotClean r = cleanFF w := by simpa using hpr
        by_cases hseen : robotClean r ∈ seen
        · have hstep : wordTierStep robots (seen, acc) w = (seen, acc) := by
            simp [wordTierStep, if_neg hw, hfind, hseen]
          rw [hstep, ih seen acc, hgood,
            show dedupFirstAux seen (cleanFF w :: goodToks robots ws) =
                dedupFirstAux seen (goodToks robots ws) from by
              rw [dedupFirstAux, if_pos (hr ▸ hseen)]]
        · have hstep : wordTierStep robots (seen, acc) w =
              (robotClean r :: seen, acc ++ [r]) := by
            simp [wordTierStep, if_neg hw, hfind, hseen]
          rw [hstep, ih (robotClean r :: seen) (acc ++ [r]), hgood,
            show dedupFirstAux seen (cleanFF w :: goodToks robots ws) =
                cleanFF w :: dedupFirstAux (cleanFF w :: seen) (goodToks robots ws) from by
              rw [dedupFirstAux, if_neg (hr ▸ hseen)],
            List.filterMap_cons, hfind, hr]
          simp

/-! ### Store and endpoint lemmas -/

theorem writeFileFs_append (store : List GenFile) (nm : String) (bytes : ℕ)
    (h : ∀ f ∈ store, f.name ≠ nm) :
    writeFileFs store nm bytes = store ++ [⟨nm, bytes⟩] := by
  unfold writeFileFs
  rw [if_neg]
  intro hx
  obtain ⟨f, hf, hbeq⟩ := List.any_eq_true.mp hx
  exact h f hf (by simpa using hbeq)

theorem genCachePred_name_only (npr : String) (f : GenFile) :
    genCachePred npr f = genCachePred npr ⟨f.name, 0⟩ := rfl

theorem fanCachePred_name_only (npr tag : String) (f : GenFile) :
    fanCachePred npr tag f = fanCachePred npr tag ⟨f.name, 0⟩ := rfl

/-- A cache-miss `find?` implies the timestamped name about to be written
is absent from the Generated listing. -/
theorem fresh_name_of_no_gen_hit (prompt ts : String) (g : List GenFile)
    (h13 : isTs13 ts)
    (hnogen : g.find? (genCachePred (underscoreConcept prompt)) = none) :
    ∀ f ∈ g, f.name ≠ underscoreConcept prompt ++ "_" ++ ts ++ ".png" := by
  intro f hf heq
  have hpredf : ¬ (genCachePred (underscoreConcept prompt) f = true) := by
    simpa using List.find?_eq_none.mp hnogen f hf
  refine hpredf ?_
  rw [genCachePred_name_only, heq]
  exact genCachePred_mkname prompt ts 0 h13

/-- As `fresh_name_of_no_gen_hit` for the fan-out tagged names. -/
theorem fresh_name_of_no_fan_hit (prompt ts tag : String) (g : List GenFile)
    (h13 : isTs13 ts) (htagl : jsLower tag = tag) (htagd : '.' ∉ tag.data)
    (hnofan : g.find? (fanCachePred (underscoreConcept prompt) tag) = none) :
    ∀ f ∈ g, f.name ≠ (underscoreConcept prompt ++ tag) ++ "_" ++ ts ++ ".png" := by
  intro f hf heq
  have hpredf : ¬ (fanCachePred (underscoreConcept prompt) tag f = true) := by
    simpa using List.find?_eq_none.mp hnofan f hf
  refine hpredf ?_
  rw [fanCachePred_name_only, heq]
  exact fanCachePred_mkname prompt ts tag 0 h13 htagl htagd

theorem openaiEstimatedCost_pos (u : Option (ℕ × ℕ)) : 0 < openaiEstimatedCost u := by
  cases u with
  | none => norm_num [openaiEstimatedCost]
  | some pc =>
    have h1 : (0 : ℚ) ≤ (pc.1 : ℚ) / 1000000 * 10 := by positivity
    have h2 : (0 : ℚ) ≤ (pc.2 : ℚ) / 1000000 * 40 := by positivity
    have h3 : (0 : ℚ) < (4160 : ℚ) / 1000000 * 40 := by norm_num
    unfold openaiEstimatedCost
    linarith

theorem googleEstimatedCost_pos : 0 < googleEstimatedCost := by
  norm_num [googleEstimatedCost]

theorem fanoutOpenaiSide_hit (np : String) (g : List GenFile) (oO) (tsO : String)
    (f : GenFile) (hf : g.find? (fanCachePred np "_openai") = some f) :
    fanoutOpenaiSide np g oO tsO = (⟨true, some f.name, true, some 0, none⟩, []) := by
  simp [fanoutOpenaiSide, hf]

theorem fanoutOpenaiSide_ok (np : String) (g : List GenFile) (tsO : String)
    (b : ℕ) (u : Option (ℕ × ℕ)) (hf : g.find? (fanCachePred np "_openai") = none) :
    fanoutOpenaiSide np g (.ok (b, u)) tsO =
      (⟨true, some (np ++ "_openai_" ++ tsO ++ ".png"), false,
        some (openaiEstimatedCost u), none⟩, [⟨np ++ "_openai_" ++ tsO ++ ".png", b⟩]) := by
  simp [fanoutOpenaiSide, hf]

theorem fanoutOpenaiSide_err (np : String) (g : List GenFile) (tsO : String)
    (e : String) (hf : g.find? (fanCachePred np "_openai") = none) :
    fanoutOpenaiSide np g (.error e) tsO = (⟨false, none, false, none, some e⟩, []) := by
  simp [fanoutOpenaiSide, hf]

theorem fanoutGoogleSide_hit (np : String) (g : List GenFile) (gO) (tsG : String)
    (f : GenFile) (hf : g.find? (fanCachePred np "_google") = some f) :
    fanoutGoogleSide np g gO tsG = (⟨true, some f.name, true, some 0, none⟩, []) := by
  simp [fanoutGoogleSide, hf]

theorem fanoutGoogleSide_ok (np : String) (g : List GenFile) (tsG : String)
    (b : ℕ) (hf : g.find? (fanCachePred np "_google") = none) :
    fanoutGoogleSide np g (.ok b) tsG =
      (⟨true, some (np ++ "_google_" ++ tsG ++ ".png"), false,
        some googleEstimatedCost, none⟩, [⟨np ++ "_google_" ++ tsG ++ ".png", b⟩]) := by
  simp [fanoutGoogleSide, hf]

theorem fanoutGoogleSide_err (np : String) (g : List GenFile) (tsG : String)
    (e : String) (hf : g.find? (fanCachePred np "_google") = none) :
    fanoutGoogleSide np g (.error e) tsG = (⟨false, none, false, none, some e⟩, []) := by
  simp [fanoutGoogleSide, hf]

/-! ### Claim theorems -/

/-- C2: the matcher returns either the single first artifact whose cleaned
name equals the cleaned concept (exact tier, always preferred, never more
than one artifact), or — only when no exact match exists — one artifact
per distinct cleaned token of length at least 2 whose cleaned name equals
that token, in token order, deduplicated by cleaned name
(`wordTierSpec`). -/
theorem matcher_tiers (prompt : String) (robots : List Robot) :
    (∀ r, robots.find? (fun x => robotClean x == cleanLF prompt) = some r →
        matchRobots prompt robots = [r] ∧ robotClean r = cleanLF prompt)
    ∧ (robots.find? (fun x => robotClean x == cleanLF prompt) = none →
        matchRobots prompt robots = wordTierSpec prompt robots) := by
  constructor
  · intro r hr
    constructor
    · simp only [matchRobots]
      rw [hr]
    · simpa using List.find?_some hr
  · intro hnone
    simp only [matchRobots, wordTierSpec, dedupFirst]
    rw [hnone]
    exact wordTier_foldl_spec robots (splitWords prompt) [] []

/-- C2 witness: exact tier on `"Python"` against a `python` artifact, and
word tier on `"Python Optimizer"` with only `python` present. -/
theorem matcher_tiers_witness :
    (matchRobots "Python" [⟨"python", "reference"⟩] = [⟨"python", "reference"⟩]
      ∧ robotClean ⟨"python", "reference"⟩ = cleanLF "Python")
    ∧ matchRobots "Python Optimizer" [⟨"python", "reference"⟩] =
        wordTierSpec "Python Optimizer" [⟨"python", "reference"⟩] :=
  ⟨(matcher_tiers "Python" [⟨"python", "reference"⟩]).1 ⟨"python", "reference"⟩ (by decide),
   (matcher_tiers "Python Optimizer" [⟨"python", "reference"⟩]).2 (by decide)⟩

/-- C10: an artifact written by fan-out mode under
`underscored(concept)_backendtag_timestamp.png` never satisfies the
single-backend generated-set cache check for the same concept: that check
strips only the trailing 13-digit timestamp, so the backend tag survives
and exact equality with the underscored concept fails. -/
theorem fanout_names_invisible_to_single_cache (p tsO tsG : String) (bO bG : ℕ)
    (hO : isTs13 tsO) (hG : isTs13 tsG) :
    genCachePred (underscoreConcept p)
        ⟨underscoreConcept p ++ "_openai_" ++ tsO ++ ".png", bO⟩ = false
    ∧ genCachePred (underscoreConcept p)
        ⟨underscoreConcept p ++ "_google_" ++ tsG ++ ".png", bG⟩ = false := by
  constructor
  · rw [show underscoreConcept p ++ "_openai_" = (underscoreConcept p ++ "_openai") ++ "_"
      from by rw [String.append_assoc, show ("_openai" : String) ++ "_" = "_openai_"
        from by decide]]
    exact genCachePred_tagged_name p tsO "_openai" bO hO (by decide) (by decide) (by decide)
  · rw [show underscoreConcept p ++ "_google_" = (underscoreConcept p ++ "_google") ++ "_"
      from by rw [String.append_assoc, show ("_google" : String) ++ "_" = "_google_"
        from by decide]]
    exact genCachePred_tagged_name p tsG "_google" bG hG (by decide) (by decide) (by decide)

/-- C10 witness at a concrete concept and timestamps. -/
theorem fanout_names_invisible_witness :
    genCachePred (underscoreConcept "Python")
        ⟨underscoreConcept "Python" ++ "_openai_" ++ "1700000000000" ++ ".png", 7⟩ = false
    ∧ genCachePred (underscoreConcept "Python")
        ⟨underscoreConcept "Python" ++ "_google_" ++ "1700000000001" ++ ".png", 9⟩ = false :=
  fanout_names_invisible_to_single_cache "Python" "1700000000000" "1700000000001" 7 9
    (by decide) (by decide)

/-- C1: a single-backend resolve whose cleaned concept equals the cleaned
name of a primary reference artifact, while no generated-set artifact
matches, answers `cached: true` at cost exactly zero with source
`'reference'`; the reference artifact's bytes are copied into the
generated set under `underscored(concept)_timestamp.png`, so that
afterwards the generated collection holds exactly the one new artifact,
whose logical name cleans to the cleaned concept. -/
theorem reference_promotion (prompt modelStr : String) (st : Store)
    (oO : Except String (ℕ × Option (ℕ × ℕ))) (gO : Except String ℕ)
    (ts tsO tsG : String) (g r : List GenFile) (rf : GenFile)
    (hp : prompt ≠ "") (hm : modelStr ≠ "both") (h13 : isTs13 ts)
    (hg : st.generated = some g) (hr : st.reference = some r)
    (hnogen : g.find? (genCachePred (underscoreConcept prompt)) = none)
    (href : r.find? (refCachePred (searchTermOf prompt)) = some rf) :
    apiGenerate prompt modelStr st oO gO ts tsO tsG =
      .single
        ⟨true, underscoreConcept prompt ++ "_" ++ ts ++ ".png", true, some "reference", 0⟩
        { st with generated := some (g ++
            [⟨underscoreConcept prompt ++ "_" ++ ts ++ ".png", rf.bytes⟩]) }
    ∧ cleanLF (stripTs13 (stripExtStr (underscoreConcept prompt ++ "_" ++ ts ++ ".png"))) =
        cleanLF prompt := by
  constructor
  · unfold apiGenerate
    rw [if_neg hp, if_neg hm]
    simp only [hg, hnogen, hr, href]
    rw [writeFileFs_append g _ rf.bytes (fresh_name_of_no_gen_hit prompt ts g h13 hnogen)]
  · rw [logicalName_shape _ _ (no_dot_underscoreConcept prompt) h13,
      cleanLF_underscoreConcept]

/-- C1 witness: concept `"Python"` against a library holding only the
reference artifact `python.png`. -/
theorem reference_promotion_witness :
    apiGenerate "Python" "openai" ⟨some [], some [⟨"python.png", 55⟩], some []⟩
        (.ok (7, none)) (.ok 9) "1700000000000" "1700000000001" "1700000000002" =
      .single
        ⟨true, underscoreConcept "Python" ++ "_" ++ "1700000000000" ++ ".png", true,
          some "reference", 0⟩
        { generated := some [⟨underscoreConcept "Python" ++ "_" ++ "1700000000000" ++ ".png",
            55⟩],
          reference := some [⟨"python.png", 55⟩], secondary := some [] }
    ∧ cleanLF (stripTs13 (stripExtStr
        (underscoreConcept "Python" ++ "_" ++ "1700000000000" ++ ".png"))) =
        cleanLF "Python" :=
  reference_promotion "Python" "openai" ⟨some [], some [⟨"python.png", 55⟩], some []⟩
    (.ok (7, none)) (.ok 9) "1700000000000" "1700000000001" "1700000000002"
    [] [⟨"python.png", 55⟩] ⟨"python.png", 55⟩
    (by decide) (by decide) (by decide) rfl rfl (by decide) (by decide)

/-- C3: in a fan-out request each backend's cache is checked under the
concept-plus-backend-tag key; a cache hit is reported `cached: true` at
cost zero with nothing written for that backend; a miss saves the backend
outcome under the independently tagged name
`concept_backendtag_timestamp.png` or reports that backend's error; each
side's entry of the combined response depends only on its own backend's
outcome (so one backend's failure cannot change the other's reported
outcome); and with backend A cached while B misses and succeeds, exactly
one new artifact (B's) is created. -/
theorem fanout_independent_backends (p : String) (g : List GenFile)
    (oO : Except String (ℕ × Option (ℕ × ℕ))) (gO : Except String ℕ)
    (tsO tsG : String) (h13O : isTs13 tsO) (h13G : isTs13 tsG) :
    (∀ f, g.find? (fanCachePred (underscoreConcept p) "_openai") = some f →
        (bothBranch p g oO gO tsO tsG).openai = ⟨true, some f.name, true, some 0, none⟩)
    ∧ (∀ f, g.find? (fanCachePred (underscoreConcept p) "_google") = some f →
        (bothBranch p g oO gO tsO tsG).google = ⟨true, some f.name, true, some 0, none⟩)
    ∧ (∀ b u, g.find? (fanCachePred (underscoreConcept p) "_openai") = none →
        oO = .ok (b, u) →
        (bothBranch p g oO gO tsO tsG).openai =
          ⟨true, some (underscoreConcept p ++ "_openai_" ++ tsO ++ ".png"), false,
            some (openaiEstimatedCost u), none⟩
        ∧ (⟨underscoreConcept p ++ "_openai_" ++ tsO ++ ".png", b⟩ : GenFile) ∈
            (bothBranch p g oO gO tsO tsG).newFiles)
    ∧ (∀ e, g.find? (fanCachePred (underscoreConcept p) "_openai") = none →
        oO = .error e →
        (bothBranch p g oO gO tsO tsG).openai = ⟨false, none, false, none, some e⟩)
    ∧ (∀ b, g.find? (fanCachePred (underscoreConcept p) "_google") = none → gO = .ok b →
        (bothBranch p g oO gO tsO tsG).google =
          ⟨true, some (underscoreConcept p ++ "_google_" ++ tsG ++ ".png"), false,
            some googleEstimatedCost, none⟩
        ∧ (⟨underscoreConcept p ++ "_google_" ++ tsG ++ ".png", b⟩ : GenFile) ∈
            (bothBranch p g oO gO tsO tsG).newFiles)
    ∧ (∀ e, g.find? (fanCachePred (underscoreConcept p) "_google") = none →
        gO = .error e →
        (bothBranch p g oO gO tsO tsG).google = ⟨false, none, false, none, some e⟩)
    ∧ (∀ oO', (bothBranch p g oO' gO tsO tsG).google =
        (bothBranch p g oO gO tsO tsG).google)
    ∧ (∀ gO', (bothBranch p g oO gO' tsO tsG).openai =
        (bothBranch p g oO gO tsO tsG).openai)
    ∧ (∀ f b, g.find? (fanCachePred (underscoreConcept p) "_openai") = some f →
        g.find? (fanCachePred (underscoreConcept p) "_google") = none → gO = .ok b →
        (bothBranch p g oO gO tsO tsG).newFiles =
          [⟨underscoreConcept p ++ "_google_" ++ tsG ++ ".png", b⟩]
        ∧ (bothBranch p g oO gO tsO tsG).store =
            g ++ [⟨underscoreConcept p ++ "_google_" ++ tsG ++ ".png", b⟩]) := by
  refine ⟨?_, ?_, ?_, ?_, ?_, ?_, ?_, ?_, ?_⟩
  · intro f hf
    show (fanoutOpenaiSide (underscoreConcept p) g oO tsO).1 = _
    rw [fanoutOpenaiSide_hit (underscoreConcept p) g oO tsO f hf]
  · intro f hf
    show (fanoutGoogleSide (underscoreConcept p) g gO tsG).1 = _
    rw [fanoutGoogleSide_hit (underscoreConcept p) g gO tsG f hf]
  · intro b u hf ho
    subst ho
    constructor
    · show (fanoutOpenaiSide (underscoreConcept p) g (.ok (b, u)) tsO).1 = _
      rw [fanoutOpenaiSide_ok (underscoreConcept p) g tsO b u hf]
    · show _ ∈ (fanoutOpenaiSide (underscoreConcept p) g (.ok (b, u)) tsO).2 ++
        (fanoutGoogleSide (underscoreConcept p) g gO tsG).2
      rw [fanoutOpenaiSide_ok (underscoreConcept p) g tsO b u hf]
      exact List.mem_append_left _ (List.mem_singleton.mpr rfl)
  · intro e hf ho
    subst ho
    show (fanoutOpenaiSide (underscoreConcept p) g (.error e) tsO).1 = _
    rw [fanoutOpenaiSide_err (underscoreConcept p) g tsO e hf]
  · intro b hf ho
    subst ho
    constructor
    · show (fanoutGoogleSide (underscoreConcept p) g (.ok b) tsG).1 = _
      rw [fanoutGoogleSide_ok (underscoreConcept p) g tsG b hf]
    · show _ ∈ (fanoutOpenaiSide (underscoreConcept p) g oO tsO).2 ++
        (fanoutGoogleSide (underscoreConcept p) g (.ok b) tsG).2
      rw [fanoutGoogleSide_ok (underscoreConcept p) g tsG b hf]
      exact List.mem_append_right _ (List.mem_singleton.mpr rfl)
  · intro e hf ho
    subst ho
    show (fanoutGoogleSide (underscoreConcept p) g (.error e) tsG).1 = _
    rw [fanoutGoogleSide_err (underscoreConcept p) g tsG e hf]
  · intro oO'
    rfl
  · intro gO'
    rfl
  · intro f b hfo hfg ho
    subst ho
    have hsplit : underscoreConcept p ++ "_google_" = (underscoreConcept p ++ "_google") ++ "_" := by
      rw [String.append_assoc, show ("_google" : String) ++ "_" = "_google_" from by decide]
    have hfresh : ∀ x ∈ g, x.name ≠ underscoreConcept p ++ "_google_" ++ tsG ++ ".png" := by
      rw [hsplit]
      exact fresh_name_of_no_fan_hit p tsG "_google" g h13G (by decide) (by decide) hfg
    constructor
    · show (fanoutOpenaiSide (underscoreConcept p) g oO tsO).2 ++
        (fanoutGoogleSide (underscoreConcept p) g (.ok b) tsG).2 = _
      rw [fanoutOpenaiSide_hit (underscoreConcept p) g oO tsO f hfo,
        fanoutGoogleSide_ok (underscoreConcept p) g tsG b hfg]
      rfl
    · show List.foldl (fun s x => writeFileFs s x.name x.bytes) g
        ((fanoutOpenaiSide (underscoreConcept p) g oO tsO).2 ++
          (fanoutGoogleSide (underscoreConcept p) g (.ok b) tsG).2) = _
      rw [fanoutOpenaiSide_hit (underscoreConcept p) g oO tsO f hfo,
        fanoutGoogleSide_ok (underscoreConcept p) g tsG b hfg]
      simp only [List.nil_append, List.foldl_cons, List.foldl_nil]
      exact writeFileFs_append g _ b hfresh

/-- C3 witness: concept `"Python"` with the OpenAI side cached and the
Google side missing and succeeding. -/
theorem fanout_independent_backends_witness :
    (bothBranch "Python" [⟨"python_openai_1600000000000.png", 3⟩] (.ok (7, none)) (.ok 9)
        "1700000000001" "1700000000002").openai =
      ⟨true, some "python_openai_1600000000000.png", true, some 0, none⟩
    ∧ (bothBranch "Python" [⟨"python_openai_1600000000000.png", 3⟩] (.ok (7, none)) (.ok 9)
        "1700000000001" "1700000000002").newFiles =
      [⟨underscoreConcept "Python" ++ "_google_" ++ "1700000000002" ++ ".png", 9⟩]
    ∧ (bothBranch "Python" [⟨"python_openai_1600000000000.png", 3⟩] (.ok (7, none)) (.ok 9)
        "1700000000001" "1700000000002").store =
      [⟨"python_openai_1600000000000.png", 3⟩] ++
        [⟨underscoreConcept "Python" ++ "_google_" ++ "1700000000002" ++ ".png", 9⟩] := by
  have h := fanout_independent_backends "Python" [⟨"python_openai_1600000000000.png", 3⟩]
    (.ok (7, none)) (.ok 9) "1700000000001" "1700000000002" (by decide) (by decide)
  refine ⟨?_, ?_, ?_⟩
  · exact h.1 ⟨"python_openai_1600000000000.png", 3⟩ (by decide)
  · exact (h.2.2.2.2.2.2.2.2 ⟨"python_openai_1600000000000.png", 3⟩ 9 (by decide)
      (by decide) rfl).1
  · exact (h.2.2.2.2.2.2.2.2 ⟨"python_openai_1600000000000.png", 3⟩ 9 (by decide)
      (by decide) rfl).2

theorem fanoutOpenaiSide_cost (np : String) (g : List GenFile)
    (oO : Except String (ℕ × Option (ℕ × ℕ))) (tsO : String) :
    ((fanoutOpenaiSide np g oO tsO).1.cached = true →
      (fanoutOpenaiSide np g oO tsO).1.cost = some 0)
    ∧ ((fanoutOpenaiSide np g oO tsO).1.success = true →
      (fanoutOpenaiSide np g oO tsO).1.cached = false →
      ∃ q, (fanoutOpenaiSide np g oO tsO).1.cost = some q ∧ 0 < q) := by
  unfold fanoutOpenaiSide
  split
  · exact ⟨fun _ => rfl, fun _ hc => by simp at hc⟩
  · split
    · exact ⟨fun hc => by simp at hc, fun _ _ => ⟨_, rfl, openaiEstimatedCost_pos _⟩⟩
    · exact ⟨fun hc => by simp at hc, fun hs _ => by simp at hs⟩

theorem fanoutGoogleSide_cost (np : String) (g : List GenFile)
    (gO : Except String ℕ) (tsG : String) :
    ((fanoutGoogleSide np g gO tsG).1.cached = true →
      (fanoutGoogleSide np g gO tsG).1.cost = some 0)
    ∧ ((fanoutGoogleSide np g gO tsG).1.success = true →
      (fanoutGoogleSide np g gO tsG).1.cached = false →
      ∃ q, (fanoutGoogleSide np g gO tsG).1.cost = some q ∧ 0 < q) := by
  unfold fanoutGoogleSide
  split
  · exact ⟨fun _ => rfl, fun _ hc => by simp at hc⟩
  · split
    · exact ⟨fun hc => by simp at hc, fun _ _ => ⟨_, rfl, googleEstimatedCost_pos⟩⟩
    · exact ⟨fun hc => by simp at hc, fun hs _ => by simp at hs⟩

/-- The cost attached to a successful single-backend generation is the
selected backend's estimate, which is strictly positive. -/
theorem outcome_cost_pos (modelStr : String) (oO : Except String (ℕ × Option (ℕ × ℕ)))
    (gO : Except String ℕ) (bc : ℕ × ℚ)
    (heq : (if modelStr = "google" then gO.map (fun b => (b, googleEstimatedCost))
            else oO.map (fun bu => (bu.1, openaiEstimatedCost bu.2))) = .ok bc) :
    0 < bc.2 := by
  split at heq
  · cases gO with
    | ok b =>
      simp only [Except.map] at heq
      cases heq
      exact googleEstimatedCost_pos
    | error e => simp [Except.map] at heq
  · cases oO with
    | ok bu =>
      simp only [Except.map] at heq
      cases heq
      exact openaiEstimatedCost_pos _
    | error e => simp [Except.map] at heq

/-- C4: every response of the generation endpoint carries cost exactly
zero when flagged cached, and a strictly positive cost when it is a
successful, non-cached fresh generation — including the no-usage OpenAI
case, where the documented fixed estimate (500 prompt tokens plus 4160
image tokens) applies rather than zero. -/
theorem cost_invariants (prompt modelStr : String) (st : Store)
    (oO : Except String (ℕ × Option (ℕ × ℕ))) (gO : Except String ℕ)
    (ts tsO tsG : String) :
    (∀ resp st₂, apiGenerate prompt modelStr st oO gO ts tsO tsG = .single resp st₂ →
        (resp.cached = true → resp.cost = 0)
        ∧ (resp.success = true → resp.cached = false → 0 < resp.cost))
    ∧ (∀ oai goo st₂, apiGenerate prompt modelStr st oO gO ts tsO tsG = .both oai goo st₂ →
        ((oai.cached = true → oai.cost = some 0)
          ∧ (oai.success = true → oai.cached = false → ∃ q, oai.cost = some q ∧ 0 < q))
        ∧ ((goo.cached = true → goo.cost = some 0)
          ∧ (goo.success = true → goo.cached = false → ∃ q, goo.cost = some q ∧ 0 < q)))
    ∧ openaiEstimatedCost none = (500 : ℚ) / 1000000 * 10 + (4160 : ℚ) / 1000000 * 40 := by
  refine ⟨?_, ?_, rfl⟩
  · intro resp st₂ h
    simp only [apiGenerate] at h
    split at h
    · exact absurd h (by simp)
    split at h
    · split at h
      · exact absurd h (by simp)
      · exact absurd h (by simp)
    · split at h
      · exact absurd h (by simp)
      · split at h
        · injection h with h1 h2
          subst h1
          exact ⟨fun _ => rfl, fun _ hc => by simp at hc⟩
        · split at h
          · exact absurd h (by simp)
          · split at h
            · injection h with h1 h2
              subst h1
              exact ⟨fun _ => rfl, fun _ hc => by simp at hc⟩
            · split at h
              · injection h with h1 h2
                subst h1
                exact ⟨fun _ => rfl, fun _ hc => by simp at hc⟩
              · split at h
                · exact absurd h (by simp)
                · injection h with h1 h2
                  subst h1
                  rename_i bc heq
                  exact ⟨fun hc => by simp at hc,
                    fun _ _ => outcome_cost_pos modelStr oO gO bc heq⟩
  · intro oai goo st₂ h
    simp only [apiGenerate] at h
    split at h
    · exact absurd h (by simp)
    split at h
    · split at h
      · exact absurd h (by simp)
      · injection h with h1 h2 h3
        subst h1
        subst h2
        exact ⟨fanoutOpenaiSide_cost _ _ _ _, fanoutGoogleSide_cost _ _ _ _⟩
    · split at h
      · exact absurd h (by simp)
      · split at h
        · exact absurd h (by simp)
        · split at h
          · exact absurd h (by simp)
          · split at h
            · exact absurd h (by simp)
            · split at h
              · exact absurd h (by simp)
              · split at h
                · exact absurd h (by simp)
                · exact absurd h (by simp)

/-- C4 witness: a cache-hit response costing zero, and a fresh no-usage
OpenAI response with strictly positive cost. -/
theorem cost_invariants_witness :
    (⟨true, "python_1600000000000.png", true, none, 0⟩ : GenResponse).cost = 0
    ∧ 0 < (⟨true, underscoreConcept "Python" ++ "_" ++ "1700000000000" ++ ".png", false, none,
        openaiEstimatedCost none⟩ : GenResponse).cost := by
  constructor
  · exact ((cost_invariants "Python" "openai"
      ⟨some [⟨"python_1600000000000.png", 3⟩], some [], some []⟩ (.ok (7, none)) (.ok 9)
      "1700000000000" "1700000000001" "1700000000002").1
      ⟨true, "python_1600000000000.png", true, none, 0⟩
      ⟨some [⟨"python_1600000000000.png", 3⟩], some [], some []⟩ (by decide)).1 rfl
  · exact ((cost_invariants "Python" "openai" ⟨some [], some [], some []⟩ (.ok (7, none))
      (.ok 9) "1700000000000" "1700000000001" "1700000000002").1
      ⟨true, underscoreConcept "Python" ++ "_" ++ "1700000000000" ++ ".png", false, none,
        openaiEstimatedCost none⟩
      ⟨some [⟨underscoreConcept "Python" ++ "_" ++ "1700000000000" ++ ".png", 7⟩], some [],
        some []⟩
      rfl).2 rfl rfl

/-- C5 (amended): in single-backend mode the cache lookup order is (1)
generated-set exact match on the normalized name, then (2) primary
reference-set match (promoted), then (3) secondary reference-set match
(promoted); in fan-out mode, by contrast, only the generated set is
consulted, under backend-tagged keys — the reference sets are never
checked, whatever they contain. -/
theorem cache_lookup_order (prompt modelStr : String) (st : Store)
    (oO : Except String (ℕ × Option (ℕ × ℕ))) (gO : Except String ℕ)
    (ts tsO tsG : String) (hp : prompt ≠ "") (hm : modelStr ≠ "both") :
    (∀ g f, st.generated = some g →
        g.find? (genCachePred (underscoreConcept prompt)) = some f →
        apiGenerate prompt modelStr st oO gO ts tsO tsG =
          .single ⟨true, f.name, true, none, 0⟩ st)
    ∧ (∀ g r rf, st.generated = some g →
        g.find? (genCachePred (underscoreConcept prompt)) = none →
        st.reference = some r → r.find? (refCachePred (searchTermOf prompt)) = some rf →
        apiGenerate prompt modelStr st oO gO ts tsO tsG =
          .single ⟨true, underscoreConcept prompt ++ "_" ++ ts ++ ".png", true,
              some "reference", 0⟩
            { st with generated := some (writeFileFs g
                (underscoreConcept prompt ++ "_" ++ ts ++ ".png") rf.bytes) })
    ∧ (∀ g r sec sf, st.generated = some g →
        g.find? (genCachePred (underscoreConcept prompt)) = none →
        st.reference = some r → r.find? (refCachePred (searchTermOf prompt)) = none →
        st.secondary = some sec → sec.find? (refCachePred (searchTermOf prompt)) = some sf →
        apiGenerate prompt modelStr st oO gO ts tsO tsG =
          .single ⟨true, underscoreConcept prompt ++ "_" ++ ts ++ ".png", true,
              some "secondary_reference", 0⟩
            { st with generated := some (writeFileFs g
                (underscoreConcept prompt ++ "_" ++ ts ++ ".png") sf.bytes) })
    ∧ (∀ g refD secD, apiGenerate prompt "both" ⟨some g, refD, secD⟩ oO gO ts tsO tsG =
        .both (fanoutOpenaiSide (underscoreConcept prompt) g oO tsO).1
          (fanoutGoogleSide (underscoreConcept prompt) g gO tsG).1
          ⟨some (bothBranch prompt g oO gO tsO tsG).store, refD, secD⟩) := by
  refine ⟨?_, ?_, ?_, ?_⟩
  · intro g f hg hf
    unfold apiGenerate
    rw [if_neg hp, if_neg hm]
    simp only [hg, hf]
  · intro g r rf hg hf hr href
    unfold apiGenerate
    rw [if_neg hp, if_neg hm]
    simp only [hg, hf, hr, href]
  · intro g r sec sf hg hf hr href hsec hsf
    unfold apiGenerate
    rw [if_neg hp, if_neg hm]
    simp only [hg, hf, hr, href, hsec, hsf]
  · intro g refD secD
    unfold apiGenerate
    rw [if_neg hp, if_pos rfl]
    rfl

/-- C5 counterexample: a fan-out request for `"Python"` with the concept
present only in the primary reference set is NOT resolved from the
reference set: both sides are uncached, generation is paid (positive
cost), and two fresh artifacts are written. -/
theorem cache_lookup_order_counterexample :
    apiGenerate "Python" "both" ⟨some [], some [⟨"python.png", 55⟩], some []⟩
        (.ok (7, none)) (.ok 9) "1700000000000" "1700000000001" "1700000000002" =
      .both
        ⟨true, some ("python_openai_" ++ "1700000000001" ++ ".png"), false,
          some (openaiEstimatedCost none), none⟩
        ⟨true, some ("python_google_" ++ "1700000000002" ++ ".png"), false,
          some googleEstimatedCost, none⟩
        ⟨some [⟨"python_openai_" ++ "1700000000001" ++ ".png", 7⟩,
            ⟨"python_google_" ++ "1700000000002" ++ ".png", 9⟩],
          some [⟨"python.png", 55⟩], some []⟩
    ∧ 0 < openaiEstimatedCost none ∧ 0 < googleEstimatedCost := by
  refine ⟨rfl, openaiEstimatedCost_pos none, googleEstimatedCost_pos⟩

/-- C5 witness: the single-backend order at concrete stores — a generated
hit wins over a reference artifact, and the fan-out shape at a concrete
store. -/
theorem cache_lookup_order_witness :
    apiGenerate "Python" "openai"
        ⟨some [⟨"python_1600000000000.png", 3⟩], some [⟨"python.png", 55⟩], some []⟩
        (.ok (7, none)) (.ok 9) "1700000000000" "1700000000001" "1700000000002" =
      .single ⟨true, "python_1600000000000.png", true, none, 0⟩
        ⟨some [⟨"python_1600000000000.png", 3⟩], some [⟨"python.png", 55⟩], some []⟩ :=
  (cache_lookup_order "Python" "openai"
      ⟨some [⟨"python_1600000000000.png", 3⟩], some [⟨"python.png", 55⟩], some []⟩
      (.ok (7, none)) (.ok 9) "1700000000000" "1700000000001" "1700000000002"
      (by decide) (by decide)).1
    [⟨"python_1600000000000.png", 3⟩] ⟨"python_1600000000000.png", 3⟩ rfl (by decide)

theorem split_openai_tag (p : String) :
    underscoreConcept p ++ "_openai_" = (underscoreConcept p ++ "_openai") ++ "_" := by
  rw [String.append_assoc, show ("_openai" : String) ++ "_" = "_openai_" from by decide]

theorem split_google_tag (p : String) :
    underscoreConcept p ++ "_google_" = (underscoreConcept p ++ "_google") ++ "_" := by
  rw [String.append_assoc, show ("_google" : String) ++ "_" = "_google_" from by decide]

theorem fresh_name_openai (prompt tsO : String) (g : List GenFile) (h13O : isTs13 tsO)
    (hfo : g.find? (fanCachePred (underscoreConcept prompt) "_openai") = none) :
    ∀ f ∈ g, f.name ≠ underscoreConcept prompt ++ "_openai_" ++ tsO ++ ".png" := by
  rw [split_openai_tag]
  exact fresh_name_of_no_fan_hit prompt tsO "_openai" g h13O (by decide) (by decide) hfo

theorem fresh_name_google (prompt tsG : String) (g : List GenFile) (h13G : isTs13 tsG)
    (hfg : g.find? (fanCachePred (underscoreConcept prompt) "_google") = none) :
    ∀ f ∈ g, f.name ≠ underscoreConcept prompt ++ "_google_" ++ tsG ++ ".png" := by
  rw [split_google_tag]
  exact fresh_name_of_no_fan_hit prompt tsG "_google" g h13G (by decide) (by decide) hfg

theorem tagged_names_ne (p tsO tsG : String) :
    (underscoreConcept p ++ "_openai_" ++ tsO ++ ".png" : String) ≠
      underscoreConcept p ++ "_google_" ++ tsG ++ ".png" := by
  intro h
  have hd := congrArg String.data h
  simp only [String.data_append, List.append_assoc] at hd
  have h2 := List.append_cancel_left hd
  simp at h2

/-- C8: the store is append-only across the three mutating transitions:
a fresh single-backend generation, a cache promotion, and a fan-out
double miss each append only new timestamped files to the generated
collection, every previously stored artifact staying present with its
bytes unchanged, and the reference collections are never written. -/
theorem store_append_only (prompt modelStr : String) (st : Store)
    (oO : Except String (ℕ × Option (ℕ × ℕ))) (gO : Except String ℕ)
    (ts tsO tsG : String) (hp : prompt ≠ "") (h13 : isTs13 ts)
    (h13O : isTs13 tsO) (h13G : isTs13 tsG) :
    (∀ g r sec bc, modelStr ≠ "both" → st.generated = some g →
        g.find? (genCachePred (underscoreConcept prompt)) = none →
        st.reference = some r → r.find? (refCachePred (searchTermOf prompt)) = none →
        st.secondary = some sec → sec.find? (refCachePred (searchTermOf prompt)) = none →
        (if modelStr = "google" then gO.map (fun b => (b, googleEstimatedCost))
          else oO.map (fun bu => (bu.1, openaiEstimatedCost bu.2))) = .ok bc →
        apiGenerate prompt modelStr st oO gO ts tsO tsG =
          .single ⟨true, underscoreConcept prompt ++ "_" ++ ts ++ ".png", false, none, bc.2⟩
            { st with generated := some (g ++
                [⟨underscoreConcept prompt ++ "_" ++ ts ++ ".png", bc.1⟩]) }
        ∧ ∀ f ∈ g, f ∈ g ++ [⟨underscoreConcept prompt ++ "_" ++ ts ++ ".png", bc.1⟩])
    ∧ (∀ g r rf, modelStr ≠ "both" → st.generated = some g →
        g.find? (genCachePred (underscoreConcept prompt)) = none →
        st.reference = some r → r.find? (refCachePred (searchTermOf prompt)) = some rf →
        apiGenerate prompt modelStr st oO gO ts tsO tsG =
          .single ⟨true, underscoreConcept prompt ++ "_" ++ ts ++ ".png", true,
              some "reference", 0⟩
            { st with generated := some (g ++
                [⟨underscoreConcept prompt ++ "_" ++ ts ++ ".png", rf.bytes⟩]) }
        ∧ ∀ f ∈ g, f ∈ g ++ [⟨underscoreConcept prompt ++ "_" ++ ts ++ ".png", rf.bytes⟩])
    ∧ (∀ g b u b2, g.find? (fanCachePred (underscoreConcept prompt) "_openai") = none →
        g.find? (fanCachePred (underscoreConcept prompt) "_google") = none →
        oO = .ok (b, u) → gO = .ok b2 →
        (bothBranch prompt g oO gO tsO tsG).store =
          g ++ [⟨underscoreConcept prompt ++ "_openai_" ++ tsO ++ ".png", b⟩,
            ⟨underscoreConcept prompt ++ "_google_" ++ tsG ++ ".png", b2⟩]
        ∧ ∀ f ∈ g, f ∈ (bothBranch prompt g oO gO tsO tsG).store) := by
  refine ⟨?_, ?_, ?_⟩
  · intro g r sec bc hm hg hf hr href hsec hsf hout
    have happ : writeFileFs g (underscoreConcept prompt ++ "_" ++ ts ++ ".png") bc.1 =
        g ++ [⟨underscoreConcept prompt ++ "_" ++ ts ++ ".png", bc.1⟩] :=
      writeFileFs_append g _ bc.1 (fresh_name_of_no_gen_hit prompt ts g h13 hf)
    constructor
    · unfold apiGenerate
      rw [if_neg hp, if_neg hm]
      simp only [hg, hf, hr, href, hsec, hsf, hout, happ]
    · intro f hfm
      exact List.mem_append_left _ hfm
  · intro g r rf hm hg hf hr href
    have happ : writeFileFs g (underscoreConcept prompt ++ "_" ++ ts ++ ".png") rf.bytes =
        g ++ [⟨underscoreConcept prompt ++ "_" ++ ts ++ ".png", rf.bytes⟩] :=
      writeFileFs_append g _ rf.bytes (fresh_name_of_no_gen_hit prompt ts g h13 hf)
    constructor
    · unfold apiGenerate
      rw [if_neg hp, if_neg hm]
      simp only [hg, hf, hr, href, happ]
    · intro f hfm
      exact List.mem_append_left _ hfm
  · intro g b u b2 hfo hfg ho hgo
    subst ho
    subst hgo
    have hstore : (bothBranch prompt g (.ok (b, u)) (.ok b2) tsO tsG).store =
        g ++ [⟨underscoreConcept prompt ++ "_openai_" ++ tsO ++ ".png", b⟩,
          ⟨underscoreConcept prompt ++ "_google_" ++ tsG ++ ".png", b2⟩] := by
      show List.foldl (fun s x => writeFileFs s x.name x.bytes) g
        ((fanoutOpenaiSide (underscoreConcept prompt) g (.ok (b, u)) tsO).2 ++
          (fanoutGoogleSide (underscoreConcept prompt) g (.ok b2) tsG).2) = _
      rw [fanoutOpenaiSide_ok (underscoreConcept prompt) g tsO b u hfo,
        fanoutGoogleSide_ok (underscoreConcept prompt) g tsG b2 hfg]
      simp only [List.cons_append, List.nil_append, List.foldl_cons, List.foldl_nil]
      rw [writeFileFs_append g _ b (fresh_name_openai prompt tsO g h13O hfo)]
      rw [writeFileFs_append _ _ b2 ?_]
      · simp
      · intro f hfm
        rcases List.mem_append.mp hfm with hfm | hfm
        · exact fresh_name_google prompt tsG g h13G hfg f hfm
        · rcases List.mem_singleton.mp hfm with rfl
          exact tagged_names_ne prompt tsO tsG
    refine ⟨hstore, ?_⟩
    intro f hfm
    rw [hstore]
    exact List.mem_append_left _ hfm

/-- C8 witness: one concrete run of each mutating transition. -/
theorem store_append_only_witness :
    apiGenerate "Python" "openai" ⟨some [⟨"java_1600000000000.png", 2⟩], some [], some []⟩
        (.ok (7, none)) (.ok 9) "1700000000000" "1700000000001" "1700000000002" =
      .single ⟨true, underscoreConcept "Python" ++ "_" ++ "1700000000000" ++ ".png", false,
          none, (7, openaiEstimatedCost none).2⟩
        ⟨some ([⟨"java_1600000000000.png", 2⟩] ++
            [⟨underscoreConcept "Python" ++ "_" ++ "1700000000000" ++ ".png",
              (7, openaiEstimatedCost none).1⟩]),
          some [], some []⟩
    ∧ (bothBranch "Python" [⟨"java_1600000000000.png", 2⟩] (.ok (7, none)) (.ok 9)
        "1700000000001" "1700000000002").store =
      [⟨"java_1600000000000.png", 2⟩] ++
        [⟨underscoreConcept "Python" ++ "_openai_" ++ "1700000000001" ++ ".png", 7⟩,
          ⟨underscoreConcept "Python" ++ "_google_" ++ "1700000000002" ++ ".png", 9⟩] := by
  constructor
  · exact ((store_append_only "Python" "openai"
      ⟨some [⟨"java_1600000000000.png", 2⟩], some [], some []⟩ (.ok (7, none)) (.ok 9)
      "1700000000000" "1700000000001" "1700000000002" (by decide) (by decide) (by decide)
      (by decide)).1 [⟨"java_1600000000000.png", 2⟩] [] [] (7, openaiEstimatedCost none)
      (by decide) rfl (by decide) rfl (by decide) rfl (by decide) rfl).1
  · exact ((store_append_only "Python" "openai"
      ⟨some [⟨"java_1600000000000.png", 2⟩], some [], some []⟩ (.ok (7, none)) (.ok 9)
      "1700000000000" "1700000000001" "1700000000002" (by decide) (by decide) (by decide)
      (by decide)).2.2 [⟨"java_1600000000000.png", 2⟩] 7 none 9 (by decide) (by decide)
      rfl rfl).1

/-- C7 (amended): only the secondary reference collection degrades
per-collection (an unreadable secondary listing is equivalent to an empty
one); an unreadable generated or primary reference listing empties the
whole match result, dropping even the readable collections' artifacts;
and the generation endpoint itself fails with a server error when the
generated listing (or, past the generated check, the primary reference
listing) cannot be read. -/
theorem unreadable_collection_degradation (prompt modelStr : String) (st : Store)
    (oO : Except String (ℕ × Option (ℕ × ℕ))) (gO : Except String ℕ)
    (ts tsO tsG : String) (g r : List String) (hp : prompt ≠ "") :
    findRelatedRobots prompt (some g) (some r) none =
        findRelatedRobots prompt (some g) (some r) (some [])
    ∧ (∀ rd sd, findRelatedRobots prompt none rd sd = [])
    ∧ (∀ sd, findRelatedRobots prompt (some g) none sd = [])
    ∧ (st.generated = none →
        apiGenerate prompt modelStr st oO gO ts tsO tsG =
          .serverError "readdir Generated failed")
    ∧ (modelStr ≠ "both" → ∀ gf, st.generated = some gf →
        gf.find? (genCachePred (underscoreConcept prompt)) = none → st.reference = none →
        apiGenerate prompt modelStr st oO gO ts tsO tsG =
          .serverError "readdir Reference Images failed") := by
  refine ⟨rfl, ?_, ?_, ?_, ?_⟩
  · intro rd sd
    cases rd <;> rfl
  · intro sd
    rfl
  · intro hgen
    unfold apiGenerate
    rw [if_neg hp]
    by_cases hm : modelStr = "both"
    · rw [if_pos hm]
      simp only [hgen]
    · rw [if_neg hm]
      simp only [hgen]
  · intro hm gf hg hf hr
    unfold apiGenerate
    rw [if_neg hp, if_neg hm]
    simp only [hg, hf, hr]

/-- C7 counterexample: with the generated directory unreadable but the
primary reference directory readable and holding a matching `python`
artifact, the matcher returns nothing at all — the readable collection's
artifact is not returned — whereas with a readable (empty) generated
directory the very same reference artifact is found. -/
theorem unreadable_collection_counterexample :
    findRelatedRobots "python" none (some ["python.png"]) (some []) = []
    ∧ findRelatedRobots "python" (some []) (some ["python.png"]) (some []) =
        [⟨"python", "reference"⟩]
    ∧ apiGenerate "python" "openai" ⟨none, some [⟨"python.png", 55⟩], some []⟩
        (.ok (7, none)) (.ok 9) "1700000000000" "1700000000001" "1700000000002" =
      .serverError "readdir Generated failed" := by
  refine ⟨rfl, by decide, rfl⟩

/-- C7 witness for the amended statement, at a concrete store. -/
theorem unreadable_collection_witness :
    findRelatedRobots "python" (some ["java_1600000000000.png"]) (some ["python.png"]) none =
      findRelatedRobots "python" (some ["java_1600000000000.png"]) (some ["python.png"])
        (some [])
    ∧ apiGenerate "python" "openai" ⟨none, some [⟨"python.png", 55⟩], some []⟩
        (.ok (7, none)) (.ok 9) "1700000000000" "1700000000001" "1700000000002" =
      .serverError "readdir Generated failed" := by
  have h := unreadable_collection_degradation "python" "openai"
    ⟨none, some [⟨"python.png", 55⟩], some []⟩ (.ok (7, none)) (.ok 9)
    "1700000000000" "1700000000001" "1700000000002"
    ["java_1600000000000.png"] ["python.png"] (by decide)
  exact ⟨h.1, h.2.2.2.1 rfl⟩

theorem isImageFileCI_shape (b ts : String) :
    isImageFileCI (b ++ "_" ++ ts ++ ".png") = true := by
  have h1 : endsWithCI (b ++ "_" ++ ts ++ ".png") ".png" = true := by
    simp only [endsWithCI]
    rw [name_data_shape b ts,
      show ((b.data ++ '_' :: ts.data) ++ ".png".data).length =
        (b.data ++ '_' :: ts.data).length + (".png".data).length from
        List.length_append _ _,
      Nat.add_sub_cancel, List.drop_left]
    simp [show (".png".data).map lowerChar = ".png".data from by decide]
  simp [isImageFileCI, h1]

theorem galleryStrip_shape (b ts : String) (h13 : isTs13 ts) :
    galleryStrip (b ++ "_" ++ ts ++ ".png") = b := by
  obtain ⟨hlen13, hdig⟩ := h13
  have hdata : (b ++ "_" ++ ts ++ ".png").data =
      b.data ++ ('_' :: (ts.data ++ '.' :: "png".data)) := by
    rw [name_data_shape b ts]
    simp
  have hlen : (b ++ "_" ++ ts ++ ".png").data.length = b.data.length + 18 := by
    rw [hdata]
    simp [hlen13]
  have c3 : (ts.data ++ '.' :: "png".data).take 13 = ts.data := List.take_left' hlen13
  have c4 : (('_' :: (ts.data ++ '.' :: "png".data)).drop 14) = '.' :: "png".data := by
    show (ts.data ++ '.' :: "png".data).drop 13 = _
    exact List.drop_left' hlen13
  have c5 : (('_' :: (ts.data ++ '.' :: "png".data)).drop 15) = "png".data := by
    show (ts.data ++ '.' :: "png".data).drop 14 = _
    rw [show ts.data ++ '.' :: "png".data = (ts.data ++ ['.']) ++ "png".data from by simp]
    exact List.drop_left' (by simp [hlen13])
  have hm : tsExtMatch (b ++ "_" ++ ts ++ ".png").data "png".data = true := by
    simp only [tsExtMatch]
    rw [hlen, show b.data.length + 18 - (15 + ("png".data).length) = b.data.length from by
      simp, hdata, List.drop_left b.data ('_' :: (ts.data ++ '.' :: "png".data))]
    simp only [List.drop_succ_cons, List.drop_zero, c3, c4, c5]
    simp [hdig]
    try decide
  simp only [galleryStrip, hm, if_true]
  rw [hlen, show b.data.length + 18 - 18 = b.data.length from by omega, hdata,
    List.take_left' rfl]

/-- C9: for a generated collection whose files all carry the core's
timestamped naming shape, the gallery returns one entry per stored image
file, ordered newest first (stored order reversed), each display name
being the stored filename with the 13-digit timestamp suffix and
extension stripped and underscores replaced by spaces. -/
theorem gallery_entries (files : List String)
    (hwf : ∀ f ∈ files, ∃ b ts, isTs13 ts ∧ f = b ++ "_" ++ ts ++ ".png") :
    apiGallery files = (files.map galleryEntry).reverse
    ∧ (apiGallery files).length = files.length
    ∧ (∀ b ts, isTs13 ts → galleryEntry (b ++ "_" ++ ts ++ ".png") =
        (b ++ "_" ++ ts ++ ".png", underscToSpace b)) := by
  have hall : files.filter isImageFileCI = files := by
    refine List.filter_eq_self.mpr ?_
    intro f hf
    obtain ⟨b, ts, h13, rfl⟩ := hwf f hf
    exact isImageFileCI_shape b ts
  refine ⟨?_, ?_, ?_⟩
  · unfold apiGallery
    rw [hall]
  · unfold apiGallery
    rw [hall]
    simp
  · intro b ts h13
    unfold galleryEntry
    rw [galleryStrip_shape b ts h13]

/-- C9 witness: a two-file generated collection. -/
theorem gallery_entries_witness :
    apiGallery ["python_1700000000000.png", "java_robot_1700000000001.png"] =
      ([galleryEntry "python_1700000000000.png",
        galleryEntry "java_robot_1700000000001.png"]).reverse
    ∧ galleryEntry ("java_robot" ++ "_" ++ "1700000000001" ++ ".png") =
        ("java_robot" ++ "_" ++ "1700000000001" ++ ".png", underscToSpace "java_robot") := by
  have h := gallery_entries ["python_1700000000000.png", "java_robot_1700000000001.png"]
    (by
      intro f hf
      rcases List.mem_cons.mp hf with rfl | hf
      · exact ⟨"python", "1700000000000", by decide, by decide⟩
      · rcases List.mem_singleton.mp hf with rfl
        exact ⟨"java_robot", "1700000000001", by decide, by decide⟩)
  exact ⟨h.1, h.2.2 "java_robot" "1700000000001" (by decide)⟩

/-! ### Substring occurrence machinery -/

theorem occursB_nil_needle (h : List Char) : occursB [] h = true := by
  induction h with
  | nil => rfl
  | cons c t ih => simp [occursB, leadsB]

theorem leadsB_refl (l : List Char) : leadsB l l = true := by
  induction l with
  | nil => rfl
  | cons a t ih => simp [leadsB, ih]

theorem leadsB_extend (n : List Char) : ∀ h h2, leadsB n h = true → leadsB n (h ++ h2) = true := by
  induction n with
  | nil => intro h h2 _; rfl
  | cons a n ih =>
    intro h h2 hl
    cases h with
    | nil => simp [leadsB] at hl
    | cons b t =>
      simp only [leadsB, Bool.and_eq_true] at hl
      simp only [List.cons_append, leadsB, Bool.and_eq_true]
      exact ⟨hl.1, ih t h2 hl.2⟩

theorem occursB_appR (n h2 h : List Char) (ho : occursB n h = true) :
    occursB n (h2 ++ h) = true := by
  induction h2 with
  | nil => exact ho
  | cons c t ih =>
    simp only [List.cons_append, occursB, Bool.or_eq_true]
    exact Or.inr ih

theorem occursB_appL (n : List Char) : ∀ h h2, occursB n h = true → occursB n (h ++ h2) = true := by
  intro h
  induction h with
  | nil =>
    intro h2 ho
    have hn : n = [] := by cases n <;> simp_all [occursB, List.isEmpty]
    subst hn
    exact occursB_nil_needle h2
  | cons c t ih =>
    intro h2 ho
    simp only [occursB, Bool.or_eq_true] at ho
    simp only [List.cons_append, occursB, Bool.or_eq_true]
    rcases ho with ho | ho
    · exact Or.inl (leadsB_extend n (c :: t) h2 ho)
    · exact Or.inr (ih h2 ho)

theorem leadsB_subset (n : List Char) : ∀ h, leadsB n h = true → ∀ c ∈ n, c ∈ h := by
  induction n with
  | nil => intro h _ c hc; cases hc
  | cons a n ih =>
    intro h hl c hc
    cases h with
    | nil => simp [leadsB] at hl
    | cons b t =>
      simp only [leadsB, Bool.and_eq_true, beq_iff_eq] at hl
      rcases List.mem_cons.mp hc with rfl | hc
      · rw [hl.1]
        exact List.mem_cons_self b t
      · exact List.mem_cons_of_mem b (ih t hl.2 c hc)

theorem occursB_subset (n : List Char) : ∀ h, occursB n h = true → ∀ c ∈ n, c ∈ h := by
  intro h
  induction h with
  | nil =>
    intro ho c hc
    have hn : n = [] := by cases n <;> simp_all [occursB, List.isEmpty]
    subst hn
    cases hc
  | cons b t ih =>
    intro ho c hc
    simp only [occursB, Bool.or_eq_true] at ho
    rcases ho with ho | ho
    · exact leadsB_subset n (b :: t) ho c hc
    · exact List.mem_cons_of_mem b (ih ho c hc)

theorem Occurs.appL {n a : String} (b : String) (h : Occurs n a) : Occurs n (a ++ b) := by
  unfold Occurs at h ⊢
  rw [String.data_append]
  exact occursB_appL n.data a.data b.data h

theorem Occurs.appR {n b : String} (a : String) (h : Occurs n b) : Occurs n (a ++ b) := by
  unfold Occurs at h ⊢
  rw [String.data_append]
  exact occursB_appR n.data a.data b.data h

theorem occurs_self (n : String) : Occurs n n := by
  unfold Occurs
  cases hd : n.data with
  | nil => simp [occursB, List.isEmpty]
  | cons c t =>
    simp only [occursB, Bool.or_eq_true]
    exact Or.inl (leadsB_refl _)

theorem not_occurs_of_char {n h : String} (c : Char) (hc : c ∈ n.data) (hh : c ∉ h.data) :
    ¬ Occurs n h :=
  fun ho => hh (occursB_subset n.data h.data ho c hc)

theorem char_notin_append {c : Char} {a b : String} (ha : c ∉ a.data) (hb : c ∉ b.data) :
    c ∉ (a ++ b).data := by
  rw [String.data_append]
  intro hm
  rcases List.mem_append.mp hm with hm | hm
  · exact ha hm
  · exact hb hm

theorem char_in_append_left {c : Char} (a b : String) (h : c ∈ a.data) : c ∈ (a ++ b).data := by
  rw [String.data_append]
  exact List.mem_append_left _ h

theorem char_notin_jsUpper_V (p : String) (h1 : 'v' ∉ p.data) (h2 : 'V' ∉ p.data) :
    'V' ∉ (jsUpper p).data := by
  intro hm
  unfold jsUpper at hm
  rw [data_mk] at hm
  obtain ⟨x, hx, hux⟩ := List.mem_map.mp hm
  exact upperChar_ne_V x (fun he => h1 (he ▸ hx)) (fun he => h2 (he ▸ hx)) hux

theorem char_notin_jsUpper_warn (p : String) (h : '⚠' ∉ p.data) :
    '⚠' ∉ (jsUpper p).data := by
  intro hm
  unfold jsUpper at hm
  rw [data_mk] at hm
  obtain ⟨x, hx, hux⟩ := List.mem_map.mp hm
  exact upperChar_ne_warn x (fun he => h (he ▸ hx)) hux

theorem occurs_joinComma (s : String) : ∀ l : List String, s ∈ l → Occurs s (joinComma l) := by
  intro l
  induction l with
  | nil => intro hs; cases hs
  | cons a rest ih =>
    intro hs
    rcases List.mem_cons.mp hs with rfl | hs
    · cases rest with
      | nil => exact occurs_self s
      | cons b r =>
        exact Occurs.appL _ (Occurs.appL _ (occurs_self s))
    · cases rest with
      | nil => cases hs
      | cons b r =>
        exact Occurs.appR _ (ih hs)

theorem char_notin_joinComma {c : Char} : ∀ l : List String, (∀ x ∈ l, c ∉ x.data) →
    c ∉ (", " : String).data → c ∉ (joinComma l).data := by
  intro l
  induction l with
  | nil => intro _ _ hm; cases hm
  | cons s rest ih =>
    intro hl hc
    cases rest with
    | nil => exact hl s (List.mem_cons_self s [])
    | cons b r =>
      exact char_notin_append
        (char_notin_append (hl s (List.mem_cons_self s _)) hc)
        (ih (fun x hx => hl x (List.mem_cons_of_mem s hx)) hc)

set_option maxRecDepth 4000 in
/-- The unique-concept shape of the composed prompt. -/
theorem buildGenerationPrompt_nil (p sg re : String) :
    buildGenerationPrompt p sg re [] =
      bgpLit1 ++ p ++ bgpLit2 ++ uniquenessInstruction p ++ bgpLit3 ++ sg ++ bgpLit4
        ++ jsUpper p ++ bgpLit5 ++ re ++ bgpLit6 ++ (bgpRem1 ++ p ++ bgpRem2)
        ++ bgpLit7 ++ p ++ bgpLit8 := rfl

set_option maxRecDepth 4000 in
/-- The matched-concept shape of the composed prompt. -/
theorem buildGenerationPrompt_cons (p sg re : String) (r : Robot) (rs : List Robot) :
    buildGenerationPrompt p sg re (r :: rs) =
      bgpLit1 ++ p ++ bgpLit2 ++ relatedInfoStr p ((r :: rs).map Robot.name) ++ bgpLit3
        ++ sg ++ bgpLit4 ++ jsUpper p ++ bgpLit5 ++ re ++ bgpLit6
        ++ (bgpImp1 ++ p ++ bgpImp2 ++ p ++ bgpImp3) ++ bgpLit7 ++ p ++ bgpLit8 := by
  simp [buildGenerationPrompt, isUniqueConcept]

set_option maxRecDepth 40000 in
set_option maxHeartbeats 1600000 in
/-- C6: when the matcher found nothing, `isUniqueConcept` is true and the
composed prompt contains the must-not-resemble-any-reference directive
(the whole uniqueness-instruction block) while omitting the
maintain-core-visual-identity directive; when the matcher found
artifacts, the prompt contains the maintain-core-visual-identity
directive, names each matched artifact, and omits the uniqueness
directive. The interpolated free texts are assumed not to contain the
marker characters `V`/`v` and `⚠` that distinguish the two directives. -/
theorem prompt_branch_directives (prompt styleGuide research : String)
    (relatedRobots : List Robot)
    (hpv : 'v' ∉ prompt.data) (hpV : 'V' ∉ prompt.data)
    (hsV : 'V' ∉ styleGuide.data) (hrV : 'V' ∉ research.data)
    (hpW : '⚠' ∉ prompt.data) (hsW : '⚠' ∉ styleGuide.data) (hrW : '⚠' ∉ research.data)
    (hnW : ∀ r ∈ relatedRobots, '⚠' ∉ r.name.data) :
    (relatedRobots = [] →
      isUniqueConcept relatedRobots = true
      ∧ Occurs "Should NOT resemble any specific reference robot"
          (buildGenerationPrompt prompt styleGuide research relatedRobots)
      ∧ Occurs (uniquenessInstruction prompt)
          (buildGenerationPrompt prompt styleGuide research relatedRobots)
      ∧ ¬ Occurs "maintain the CORE VISUAL IDENTITY"
          (buildGenerationPrompt prompt styleGuide research relatedRobots))
    ∧ (relatedRobots ≠ [] →
      isUniqueConcept relatedRobots = false
      ∧ Occurs "maintain the CORE VISUAL IDENTITY"
          (buildGenerationPrompt prompt styleGuide research relatedRobots)
      ∧ (∀ r ∈ relatedRobots,
          Occurs r.name (buildGenerationPrompt prompt styleGuide research relatedRobots))
      ∧ ¬ Occurs (uniquenessInstruction prompt)
          (buildGenerationPrompt prompt styleGuide research relatedRobots)) := by
  constructor
  · rintro rfl
    refine ⟨rfl, ?_, ?_, ?_⟩
    · rw [buildGenerationPrompt_nil]
      have hUI : Occurs "Should NOT resemble any specific reference robot"
          (uniquenessInstruction prompt) := by
        unfold uniquenessInstruction
        exact Occurs.appL _ (Occurs.appL _ (Occurs.appL _ (Occurs.appL _
          (Occurs.appR _ (by decide)))))
      exact Occurs.appL _ (Occurs.appL _ (Occurs.appL _ (Occurs.appL _ (Occurs.appL _
        (Occurs.appL _ (Occurs.appL _ (Occurs.appL _ (Occurs.appL _ (Occurs.appL _
          (Occurs.appL _ (Occurs.appR _ hUI)))))))))))
    · rw [buildGenerationPrompt_nil]
      exact Occurs.appL _ (Occurs.appL _ (Occurs.appL _ (Occurs.appL _ (Occurs.appL _
        (Occurs.appL _ (Occurs.appL _ (Occurs.appL _ (Occurs.appL _ (Occurs.appL _
          (Occurs.appL _ (Occurs.appR _ (occurs_self _))))))))))))
    · refine not_occurs_of_char 'V' (by decide) ?_
      rw [buildGenerationPrompt_nil]
      simp only [uniquenessInstruction]
      repeat' apply char_notin_append
      all_goals first
        | exact hpV
        | exact hsV
        | exact hrV
        | exact char_notin_jsUpper_V prompt hpv hpV
        | decide
  · intro hne
    obtain ⟨r, rs, rfl⟩ : ∃ r rs, relatedRobots = r :: rs := by
      cases relatedRobots with
      | nil => exact absurd rfl hne
      | cons r rs => exact ⟨r, rs, rfl⟩
    refine ⟨rfl, ?_, ?_, ?_⟩
    · rw [buildGenerationPrompt_cons]
      have hRI : Occurs "maintain the CORE VISUAL IDENTITY"
          (relatedInfoStr prompt ((r :: rs).map Robot.name)) := by
        unfold relatedInfoStr
        exact Occurs.appL _ (Occurs.appL _ (Occurs.appR _ (by decide)))
      exact Occurs.appL _ (Occurs.appL _ (Occurs.appL _ (Occurs.appL _ (Occurs.appL _
        (Occurs.appL _ (Occurs.appL _ (Occurs.appL _ (Occurs.appL _ (Occurs.appL _
          (Occurs.appL _ (Occurs.appR _ hRI)))))))))))
    · intro rr hmem
      rw [buildGenerationPrompt_cons]
      have hJ : Occurs rr.name (joinComma ((r :: rs).map Robot.name)) :=
        occurs_joinComma rr.name _ (List.mem_map.mpr ⟨rr, hmem, rfl⟩)
      have hRI : Occurs rr.name (relatedInfoStr prompt ((r :: rs).map Robot.name)) := by
        unfold relatedInfoStr
        exact Occurs.appL _ (Occurs.appL _ (Occurs.appL _ (Occurs.appL _ (Occurs.appL _
          (Occurs.appR _ hJ)))))
      exact Occurs.appL _ (Occurs.appL _ (Occurs.appL _ (Occurs.appL _ (Occurs.appL _
        (Occurs.appL _ (Occurs.appL _ (Occurs.appL _ (Occurs.appL _ (Occurs.appL _
          (Occurs.appL _ (Occurs.appR _ hRI)))))))))))
    · have hwmem : '⚠' ∈ (uniquenessInstruction prompt).data := by
        unfold uniquenessInstruction
        exact char_in_append_left _ _ (char_in_append_left _ _ (char_in_append_left _ _
          (char_in_append_left _ _ (char_in_append_left _ _ (char_in_append_left _ _
            (by decide))))))
      refine not_occurs_of_char '⚠' hwmem ?_
      rw [buildGenerationPrompt_cons]
      simp only [relatedInfoStr]
      repeat' apply char_notin_append
      all_goals first
        | exact hpW
        | exact hsW
        | exact hrW
        | exact char_notin_jsUpper_warn prompt hpW
        | exact char_notin_joinComma _ (fun x hx => by
            obtain ⟨rr, hrr, rfl⟩ := List.mem_map.mp hx
            exact hnW rr hrr) (by decide)
        | decide

set_option maxRecDepth 40000 in
set_option maxHeartbeats 1600000 in
/-- C6 witness: a matched concept (`"python"` with a `python` artifact)
and, separately, the unique-concept branch for `"qbit"`. -/
theorem prompt_branch_directives_witness :
    (isUniqueConcept [(⟨"python", "reference"⟩ : Robot)] = false
      ∧ Occurs "maintain the CORE VISUAL IDENTITY"
          (buildGenerationPrompt "python" "shinymetal" "bluegreen"
            [⟨"python", "reference"⟩])
      ∧ (∀ r ∈ [(⟨"python", "reference"⟩ : Robot)],
          Occurs r.name
            (buildGenerationPrompt "python" "shinymetal" "bluegreen"
              [⟨"python", "reference"⟩]))
      ∧ ¬ Occurs (uniquenessInstruction "python")
          (buildGenerationPrompt "python" "shinymetal" "bluegreen"
            [⟨"python", "reference"⟩]))
    ∧ (isUniqueConcept ([] : List Robot) = true
      ∧ Occurs "Should NOT resemble any specific reference robot"
          (buildGenerationPrompt "qbit" "shinymetal" "bluegreen" [])
      ∧ Occurs (uniquenessInstruction "qbit")
          (buildGenerationPrompt "qbit" "shinymetal" "bluegreen" [])
      ∧ ¬ Occurs "maintain the CORE VISUAL IDENTITY"
          (buildGenerationPrompt "qbit" "shinymetal" "bluegreen" [])) :=
  ⟨(prompt_branch_directives "python" "shinymetal" "bluegreen" [⟨"python", "reference"⟩]
      (by decide) (by decide) (by decide) (by decide) (by decide) (by decide) (by decide)
      (by decide)).2 (by decide),
   (prompt_branch_directives "qbit" "shinymetal" "bluegreen" []
      (by decide) (by decide) (by decide) (by decide) (by decide) (by decide) (by decide)
      (by decide)).1 rfl⟩

end RobotServer